import Mathlib

/-!
Verification development for the muni-bond scrape repository.

The core under study is the name-standardization and fee-extraction
pipeline:
  * `src/clean_data.py`        — entity registry and name/website resolution,
  * `src/scrape/deal_info/__init__.py` — record standardizer,
  * `src/spacy/find_underwriter_discount.py` — fee extractor (regex cascade),
  * `src/spacy_find_ud/main.py` + `overrides.py` — override layer.

Python strings are modelled as `List Char`; Python `dict`s as association
lists where the most recent insertion sits at the head (so lookup of the
first matching key realises "last write wins"); Python `float` amounts as
`ℚ` (the decimal numerals occurring here are exact); logging as an explicit
list of emitted messages.
-/

set_option maxRecDepth 4000
set_option maxHeartbeats 4000000

abbrev Str := List Char

/-- Python `str.lower()` restricted to the character set appearing in this
code base (ASCII letters, digits, punctuation). -/
def pyLower (s : Str) : Str := s.map Char.toLower

/-- Python whitespace: the default set of `str.strip()` and of regex `\s`
(space, tab, newline, carriage return, vertical tab, form feed). -/
def isPyWS (c : Char) : Bool :=
  c = ' ' || c = '\t' || c = '\n' || c = '\r' || c = Char.ofNat 11 || c = Char.ofNat 12

/-- Leading-whitespace removal (half of Python `str.strip()`). -/
def trimLeft (s : Str) : Str := s.dropWhile isPyWS

/-- Trailing-whitespace removal (half of Python `str.strip()`). -/
def trimRight (s : Str) : Str := (s.reverse.dropWhile isPyWS).reverse

/-- Python `str.strip()`. -/
def pyStrip (s : Str) : Str := trimRight (trimLeft s)

/-- The scheme prefix `http://`. -/
def httpS : Str := "http://".data

/-- The scheme prefix `https://`. -/
def httpsS : Str := "https://".data

/-- The prefix `www.`. -/
def wwwS : Str := "www.".data

/-- `re.sub(r"^(https?://)?(www\.)?", "", s)`: the anchored regex removes one
optional scheme (`https://` preferred over `http://`, as the greedy `s?`
does) and then one optional `www.`. -/
def stripSchemeWWW (s : Str) : Str :=
  let s1 := if httpsS.isPrefixOf s then s.drop 8
            else if httpS.isPrefixOf s then s.drop 7
            else s
  if wwwS.isPrefixOf s1 then s1.drop 4 else s1

/-! ## Python dicts -/

/-- A Python `dict` with `Str` keys: an association list whose head is the
most recent insertion. -/
abbrev Dict (α : Type) : Type := List (Str × α)

/-- `d[k] = v` (insertion/overwrite; the new binding shadows older ones). -/
def dictInsert {α : Type} (d : Dict α) (k : Str) (v : α) : Dict α := (k, v) :: d

/-- `d.get(k)`: value of the newest binding of `k`, if any. -/
def dictGet {α : Type} (d : Dict α) (k : Str) : Option α :=
  (d.find? (fun p => p.1 == k)).map (fun p => p.2)

/-! ## `clean_data.py`: `Company` and `CompanyStandardizer` -/

/-- `Company` dataclass: canonical name with its variation and website sets
(sets are modelled as lists up to membership). -/
structure Company where
  canonical_name : Str
  name_variations : List Str
  websites : List Str
deriving DecidableEq

/-- `CompanyStandardizer` state: the entity table and the two resolution
indexes. -/
structure CompanyStandardizer where
  companies : Dict Company
  name_to_canonical : Dict Str
  website_to_canonical : Dict Str
deriving DecidableEq

/-- `CompanyStandardizer.clean_website`: lower-case and strip the URL, drop
one optional scheme and `www.` prefix, and keep everything before the first
`/`.  Returns `none` exactly when the input is falsy (empty). -/
def clean_website (url : Str) : Option Str :=
  if url = [] then none
  else
    let domain := stripSchemeWWW (pyStrip (pyLower url))
    some (domain.takeWhile (fun c => c ≠ '/'))

/-- The set comprehension `{name.strip() for name in name_variations}`
(membership-equivalent list form). -/
def cleanVariations (name_variations : List Str) : List Str :=
  name_variations.map pyStrip

/-- The set comprehension
`{domain for url in websites if (domain := self.clean_website(url))}`:
cleaned domains, with falsy results (`None` and `""`) filtered out. -/
def cleanWebsites (websites : List Str) : List Str :=
  websites.filterMap (fun url =>
    match clean_website url with
    | some d => if d = [] then none else some d
    | none => none)

/-- `CompanyStandardizer.add_company`: store/overwrite the `Company` record
and register every cleaned variation and website in the lookup dicts. -/
def add_company (S : CompanyStandardizer) (canonical_name : Str)
    (name_variations : List Str) (websites : List Str) : CompanyStandardizer :=
  let clean_variations := cleanVariations name_variations
  let clean_websites := cleanWebsites websites
  { companies := dictInsert S.companies canonical_name
      ⟨canonical_name, clean_variations, clean_websites⟩
    name_to_canonical :=
      clean_variations.foldl (fun d v => dictInsert d v canonical_name) S.name_to_canonical
    website_to_canonical :=
      clean_websites.foldl (fun d w => dictInsert d w canonical_name) S.website_to_canonical }

/-- `CompanyStandardizer.get_canonical_name_from_website`: clean the URL and
look the domain up in the website index. -/
def get_canonical_name_from_website (S : CompanyStandardizer) (website : Str) : Option Str :=
  if website = [] then none
  else
    match clean_website website with
    | some domain => dictGet S.website_to_canonical domain
    | none => none

/-- The test `raw_name.startswith("http://") or raw_name.startswith("https://")
or raw_name.startswith("www.")`. -/
def urlLike (raw : Str) : Bool :=
  httpS.isPrefixOf raw || httpsS.isPrefixOf raw || wwwS.isPrefixOf raw

/-- `CompanyStandardizer.get_canonical_name`: empty input resolves to nothing;
URL-shaped input is delegated to website resolution (the warning print on a
failed website lookup is I/O and not modelled); otherwise the stripped name
is looked up in the name index. -/
def get_canonical_name (S : CompanyStandardizer) (raw_name : Str) : Option Str :=
  if raw_name = [] then none
  else if urlLike raw_name then
    get_canonical_name_from_website S raw_name
  else
    dictGet S.name_to_canonical (pyStrip raw_name)
/-- A surrogate apostrophe string (U+0027), used to spell seed names. -/
def aposStr : String := String.mk [Char.ofNat 39]

/-- The seed data of `initialize_companies`: the `underwriters`,
`municipal_advisors` and `law_firms` tables concatenated in source order,
each entry `(canonical_name, name_variations, websites)`. -/
def all_companies : List (String × List String × List String) := [
  ("Barclays Capital", ["Barclays", "BARCLAYS", "Barclays Capital", "BARCLAYS CAPITAL", "Barclays Capital Inc."], ["barclays.com", "barclays.co.uk"]),
  ("BofA Securities", ["Bank of America", "BofA Securities", "BofA Securities, Inc.", "BofA Merrill Lynch", "BOFA SECURITIES", "BofA SECURITIES", "Bank of America Securities", "Bank of America Securities, Inc.", "BofA"], ["bofaml.com", "bankofamerica.com"]),
  ("KeyBanc Capital Markets", ["KeyBanc Capital Markets", "KeyBanc Capital Markets Inc.", "KeyBanc", "Key Capital Markets", "Cain Brothers", "Cain Brothers, a division of KeyBanc Capital Markets"], ["key.com", "cainbrothers.com"]),
  ("Colliers Securities", ["Colliers Securities", "Colliers Securities LLC", "COLLIERS", "COLLIERS SECURITIES LLC"], ["colliers.com"]),
  ("Piper Sandler", ["Piper Sandler", "Piper Sandler & Co.", "PIPER SANDLER", "Piper Sandler & Co., Inc.", "PIPER SANDLER & CO."], ["pipersandler.com"]),
  ("Loop Capital Markets", ["Loop Capital Markets", "Loop Capital", "LOOP CAPITAL"], ["loopcapital.com"]),
  ("Ziegler", ["Ziegler", "ZIEGLER", "B.C. Ziegler", "B.C. Ziegler and Company"], ["ziegler.com"]),
  ("Fifth Third Securities", ["Fifth Third Securities", "Fifth Third Securities, Inc.", "Fifth Third Securities, Inc. (MA)", "Fifth Third", "FIFTH THIRD", "5/3 Securities"], ["53.com"]),
  ("Goldman Sachs & Co. LLC", ["Goldman Sachs", "GOLDMAN SACHS", "Goldman, Sachs & Co.", "Goldman Sachs & Co.", "Goldman Sachs & Co. LLC", "Goldman Sachs & Co. LLC", "GS"], ["goldmansachs.com", "gs.com"]),
  ("J.P. Morgan", ["JPMorgan", "J.P. Morgan", "JP Morgan", "JPMorgan Chase", "JPMORGAN", "JPMorgan Chase & Co.", "JPMorgan Chase & Co.", "J.P. MORGAN", "j.p. morgan", "j.p morgan", "j.p. morgan", "j.p. morgan", "j.p.morgan", "jp morgan", "jpmorgan", "j. p. m o r g a n", "j. p. morgan", "j .p. morgan", "j. p.morgan", "j. p. morgan", "pmorgan"], ["jpmorgan.com", "jpmorganchase.com"]),
  ("Morgan Stanley", ["Morgan Stanley", "MORGAN STANLEY", "Morgan Stanley & Co.", "Morgan Stanley & Co. LLC"], ["morganstanley.com"]),
  ("Citigroup", ["Citigroup", "CITIGROUP", "Citigroup Inc."], ["citigroup.com"]),
  ("RBC Capital Markets", ["RBC Capital Markets", "RBC", "Royal Bank of Canada", "RBC CM"], ["rbccm.com", "rbc.com"]),
  ("TD Securities", ["TD Securities", "TD SECURITIES", "TD Securities Inc.", "TD Securities LLC"], ["tdsecurities.com", "td.com"]),
  ("Wells Fargo", ["Wells Fargo", "WELLS FARGO", "Wells Fargo Securities", "Wells Fargo Bank", "Wells Fargo & Company", "Wells Fargo Corporate & Investment Banking", "Wells Fargo & Company, N.A."], ["wellsfargo.com"]),
  ("Jefferies", ["Jefferies", "JEFFERIES", "Jefferies LLC", "Jefferies Group"], ["jefferies.com"]),
  ("Raymond James", ["Raymond James", "RAYMOND JAMES", "Raymond James & Associates"], ["raymondjames.com"]),
  ("Truist", ["Truist", "TRUIST", "Truist Securities", "BB&T", "SunTrust Robinson Humphrey"], ["truist.com"]),
  ("American Veterans Group", ["American Veterans Group", "American Veterans Group, PBC"], ["americanveteransgroup.com"]),
  ("Blaylock Van", ["Blaylock Van", "Blaylock Van, LLC"], ["blaylockvan.com"]),
  ("BNY Mellon Capital Markets", ["BNY Mellon Capital Markets", "BNY Mellon Capital Markets, LLC"], ["bnymellon.com"]),
  ("Siebert Williams Shank", ["Siebert Williams Shank", "Siebert Williams Shank & Co.", "Siebert Williams Shank & Co., LLC", "SWS", "Siebert Williams", "SIEBERT WILLIAMS SHANK"], ["siebertwilliams.com"]),
  ("Stephens Inc.", ["Stephens", "Stephens Inc.", "Stephens Inc", "STEPHENS", "STEPHENS INC"], ["stephens.com"]),
  ("UBS Financial Services", ["UBS", "UBS Group", "Ubs", "UBS Financial", "UBS Financial Services", "UBS Financial Services Inc.", "UBS Securities", "UBS Investment Bank"], ["ubs.com", "www.ubs.com"]),
  ("PNC Capital Markets", ["PNC", "PNC Capital Markets", "PNC Capital Markets LLC", "PNC CAPITAL MARKETS", "PNC CAPITAL MARKETS LLC", "PNC Bank", "PNC Financial Services"], ["pnc.com", "pnccapitalmarkets.com"]),
  ("HJ Sims", ["HJ Sims", "H.J. Sims", "Herbert J. Sims", "Herbert J. Sims & Co.", "Herbert J. Sims & Co., LLC", "HJS", "HJSIMS"], ["hjsims.com"]),
  ("U.S. Bank", ["U.S. Bank", "US Bank", "USBank", "U.S. Bancorp", "US BANK", "U.S. BANK", "U.S. Bank National Association"], ["usbank.com", "www.usbank.com"]),
  ("Northland Securities", ["Northland Securities", "Northland Securities, Inc.", "NORTHLAND SECURITIES", "Northland", "NorthlandSecurities", "Northland Capital Markets"], ["northlandsecurities.com", "northlandcapitalmarkets.com"]),
  ("Academy Securities", ["Academy Securities", "Academy Securities, Inc.", "ACADEMY SECURITIES"], ["academysecurities.com"]),
  ("AmeriVet Securities", ["AmeriVet Securities", "AmeriVet Securities, Inc.", "AMERIVET SECURITIES"], ["amerivetsecurities.com"]),
  ("Bancroft Capital", ["Bancroft Capital", "Bancroft Capital, LLC", "BANCROFT CAPITAL"], ["bancroft4vets.com"]),
  ("Cabrera Capital Markets", ["Cabrera Capital Markets", "Cabrera Capital Markets, LLC", "CABRERA CAPITAL MARKETS"], ["cabreracapital.com"]),
  ("Davenport & Company", ["Davenport & Company", "Davenport & Company LLC", "Davenport & Co.", "DAVENPORT & COMPANY"], ["davenportllc.com", "investdavenport.com"]),
  ("FHN Financial Capital Markets", ["FHN Financial Capital Markets", "FHN Financial", "First Horizon", "FHN FINANCIAL"], ["fhnfinancial.com"]),
  ("Huntington Capital Markets", ["Huntington Capital Markets", "Huntington", "HUNTINGTON CAPITAL MARKETS", "The Huntington Investment Company"], ["huntington.com"]),
  ("Janney Montgomery Scott", ["Janney Montgomery Scott", "Janney Montgomery Scott LLC", "Janney", "JANNEY MONTGOMERY SCOTT"], ["janney.com"]),
  ("Melvin Securities", ["Melvin Securities", "Melvin Securities, LLC", "MELVIN SECURITIES"], ["melvinsecurities.com"]),
  ("Multi-Bank Securities", ["Multi-Bank Securities", "Multi-Bank Securities, Inc.", "MULTI-BANK SECURITIES", "MBS"], ["mbssecurities.com"]),
  ("Rice Financial Products Company", ["Rice Financial Products Company", "Rice Financial", "RICE FINANCIAL PRODUCTS COMPANY", "Rice Financial Products Co."], ["ricefin.com"]),
  ("SMBC Nikko", ["SMBC Nikko", "SMBC Nikko Securities America", "SMBC NIKKO", "SMBC Nikko Securities"], ["smbcnikko-si.com"]),
  ("Ramirez & Co.", ["Ramirez & Co.", "Ramirez & Co., Inc.", "RAMIREZ & CO., INC.", "Ramirez", "Samuel A. Ramirez & Company"], ["ramirezco.com"]),
  ("Estrada Hinojosa", ["Estrada Hinojosa", "Estrada Hinojosa & Company", "Estrada Hinojosa & Company, Inc.", "ESTRADA HINOJOSA", "TRB Capital Markets", "TRB Capital Markets, LLC", "Estrada Hinojosa Investment Bankers"], ["ehmuni.com", "estradahinojosa.com"]),
  ("Bryant Miller Olive", [("Burke, Mayborn, O" ++ aposStr ++ "Mara"), ("Burke Mayborn O" ++ aposStr ++ "Mara"), "Bryant Miller Olive", "BMO Law"], ["bmolaw.com"]),
  ("Brown Hutchinson", ["Brown Hutchinson", "BROWN HUTCHINSON", "Brown Hutchinson LLP"], ["brownhutchinson.com"]),
  ("Hardwick Shiver", ["Hardwick Shiver", "HARDWICK SHIVER", "Hardwick Shiver Brown", "HSB Law"], ["hsblawfirm.com"]),
  ("Katten Muchin Rosenman", ["Katten Muchin Rosenman", "Katten", "KATTEN", "Katten Law"], ["kattenlaw.com"]),
  ("Nabors, Giblin & Nickerson, P.A.", ["NG&N", "Nabors, Giblin & Nickerson", "NGN Law", "Nabors, Giblin & Nickerson, P.A."], ["ngnlaw.com"]),
  ("Pearlman & Miranda, LLC", ["Pearlman & Miranda", "Pearlman & Miranda, LLC", "Pearlman and Miranda", "PEARLMAN & MIRANDA", "Pearlman Miranda"], ["pearlmanmiranda.com"]),
  ("Robinson Bradshaw", ["Robinson Bradshaw", "ROBINSON BRADSHAW", "Robinson Bradshaw & Hinson", "RBH Law"], ["rbh.com", "robinsonbradshaw.com"]),
  ("Saul Ewing", ["Saul Ewing", "SAUL EWING", "Saul Ewing LLP", "Saul Ewing Arnstein & Lehr"], ["saul.com"]),
  ("Oppenheimer & Co.", ["Oppenheimer & Co.", "Oppenheimer", "OPPENHEIMER", "Oppenheimer & Co. Inc.", "Opco"], ["opco.com", "oppenheimer.com"]),
  ("Mesirow Financial", ["Mesirow Financial", "Mesirow", "MESIROW", "Mesirow Financial Holdings, Inc."], ["mesirow.com", "mesirowfinancial.com"]),
  ("Blue River Analytics", ["Blue River Analytics", "Blue River", "BRV", "BRV LLC", "Blue River Analytics, LLC"], ["brv-llc.com"]),
  ("The Frazer Lanier Company", ["The Frazer Lanier Company", "Frazer Lanier", "FRAZER LANIER", "Frazer Lanier Company"], ["frazerlanier.com"]),
  ("UMB Financial", ["UMB Financial", "UMB Bank", "UMB", "UMB Financial Corporation", "UMB Bank n.a."], ["umb.com"]),
  ("SDAO Advisory Services", ["SDAO Advisory Services", "SDAO Advisory Services LLC", "SDAOAS"], ["sdao.com"]),
  ("Houlihan Lokey", ["Houlihan Lokey", "Houlihan Lokey Capital", "Houlihan Lokey Capital, Inc", "Houlihan Lokey Capital, Inc (MA)"], ["hl.com"]),
  ("Echo Financial Products", ["Echo Financial Products", "Echo Financial Products, LLC", "Echo Financial Products, LLC (MA)"], ["echo-fp.com"]),
  ("Hilltop Securities", ["Hilltop Securities", "Hilltop Securities Inc.", "Hilltop Securities Inc. (MA)", "HilltopSecurities", "HILLTOP"], ["hilltopsecurities.com"]),
  ("Kaufman Hall", ["Kaufman Hall", "Kaufman, Hall & Associates", "Kaufman, Hall & Associates, LLC", "Kaufman, Hall & Associates, LLC (MA)", "kaufm (MA)"], ["kaufmanhall.com"]),
  ("PFM Financial Advisors", ["PFM", "PFM Financial Advisors", "PFM Financial Advisors LLC", "PFM Financial Advisors LLC (MA)", "Public Financial Management"], ["pfm.com"]),
  ("First River Advisory", ["First River Advisory", "First River Advisory L.L.C.", "First River Advisory LLC", "First River Advisory L.L.C", "First River", "FRA"], ["firstriver.com"]),
  ("Columbia Capital", ["Columbia Capital", "Columbia Capital Management", "Columbia Capital Management, LLC"], ["columbiacapital.com"]),
  ("Melio & Company", ["Melio & Company", "Melio and Company", "Melio & Co", "Melio Company"], ["meliocompany.com"]),
  ("Ponder & Co.", ["Ponder & Co.", "Ponder and Company", "Ponder & Company", "Ponder"], ["ponderco.com"]),
  ("Swap Financial Group", ["Swap Financial Group", "Swap Financial", "SWAP Financial Group", "SFG"], ["swapfinancial.com"]),
  ("AAFAF", ["AAFAF", "Puerto Rico Fiscal Agency and Financial Advisory Authority", "Autoridad de Asesor√≠a Financiera y Agencia Fiscal"], ["aafaf.pr.gov"]),
  ("Acacia Financial Group", ["Acacia Financial Group", "Acacia Financial", "ACACIA", "Acacia Financial Group, Inc."], ["acaciafin.com"]),
  ("Argent Financial Group", ["Argent Financial Group", "Argent Financial", "ARGENT", "Argent Financial Group, Inc."], ["argentfinancial.com"]),
  ("Brown Advisory", ["Brown Advisory", "Brown Advisory LLC", "BROWN ADVISORY"], ["brownadvisory.com"]),
  ("Evercrest Capital", ["Evercrest Capital", "Evercrest Advisors", "EVERCREST", "Evercrest Capital Advisors"], ["evercrestadvisors.com"]),
  ("First Tryon Advisors", ["First Tryon Advisors", "First Tryon", "FIRST TRYON"], ["firsttryon.com"]),
  ("Government Capital Securities", ["Government Capital Securities", "Government Capital Securities Corporation", "GovCap Securities", "GOVCAP"], ["govcapsecurities.com"]),
  ("Hammond Hanlon Camp", ["Hammond Hanlon Camp", "Hammond Hanlon Camp LLC", "H2C", "H2C Securities"], ["h2c.com"]),
  ("Hamlin Capital Advisors", ["Hamlin Capital Advisors", "Hamlin Capital", "Hamlin Advisors", "HAMLIN"], ["hamlinadvisors.com"]),
  ("Huron Consulting Group", ["Huron Consulting Group", "Huron Consulting", "Huron", "HURON"], ["huronconsultinggroup.com"]),
  ("Lamont Financial Services", ["Lamont Financial Services", "Lamont Financial", "LAMONT", "Lamont Financial Services Corporation"], ["lamontfin.com"]),
  ("The Majors Group", ["The Majors Group", "Majors Group", "MAJORS GROUP", "Majors"], ["majorsgrp.com"]),
  ("Marathon Capital", ["Marathon Capital", "MARATHON CAPITAL", "Marathon", "MARA Capital"], ["mara-cap.com"]),
  ("Public Resources Advisory Group", ["Public Resources Advisory Group", "PRAG", "Public Resources", "PRAG Advisors"], ["pragadvisors.com"]),
  ("Prager & Co.", ["Prager & Co.", "Prager", "PRAGER", "Prager & Company", "Prager & Company, LLC"], ["prager.com"]),
  ("Robert W. Baird", ["Robert W. Baird", "Baird", "R.W. Baird", "Robert W. Baird & Co.", "BAIRD"], ["rwbaird.com"]),
  ("Stifel", ["Stifel", "STIFEL", "Stifel Financial", "Stifel Financial Corp.", "Stifel, Nicolaus & Company"], ["stifel.com"]),
  ("Yuba Group", ["Yuba Group", "YUBA GROUP", "Yuba", "The Yuba Group"], ["yubagroup.com"]),
  ("Cantu Harden Montoya", ["Cantu Harden Montoya", "CANTU HARDEN MONTOYA", "Cantu Harden & Montoya"], ["cantuhardenmontoya.com"]),
  ("Murray Barnes Finister", ["Murray Barnes Finister", "Murray Barnes Law", "MURRAY BARNES"], ["murraybarneslaw.com"]),
  ("Balch & Bingham", ["Balch & Bingham", "Balch and Bingham", "BALCH"], ["balch.com"]),
  ("Ballard Spahr", ["Ballard Spahr", "BALLARD SPAHR", "Ballard Spahr LLP"], ["ballardspahr.com"]),
  ("Bass Berry & Sims", ["Bass Berry & Sims", "Bass, Berry & Sims", "BASS BERRY"], ["bassberry.com"]),
  ("Barnes & Thornburg", ["Barnes & Thornburg", "Barnes and Thornburg", "BT Law"], ["btlaw.com"]),
  ("Bracewell", ["Bracewell", "Bracewell LLP", "Bracewell Law"], ["bracewelllaw.com"]),
  ("Bricker & Eckler", ["Bricker & Eckler", "Bricker Graydon", "BRICKER"], ["brickergraydon.com"]),
  ("Chapman and Cutler", ["Chapman and Cutler", "Chapman & Cutler", "Chapman"], ["chapman.com"]),
  ("Dickinson Wright", ["Dickinson Wright", "DICKINSON WRIGHT", "Dickinson Wright PLLC"], ["dickinson-wright.com"]),
  ("Dinsmore & Shohl", ["Dinsmore & Shohl", "Dinsmore", "DINSMORE"], ["dinsmore.com"]),
  ("Dorsey & Whitney", ["Dorsey & Whitney", "Dorsey", "DORSEY"], ["dorsey.com"]),
  ("Foley & Lardner", ["Foley & Lardner", "Foley", "FOLEY"], ["foley.com"]),
  ("Fox Rothschild", ["Fox Rothschild", "FOX ROTHSCHILD", "Fox Rothschild LLP"], ["foxrothschild.com"]),
  ("Gilmore & Bell", ["Gilmore & Bell", "Gilmore and Bell", "GILMORE BELL"], ["gilmorebell.com"]),
  ("Harris Beach", ["Harris Beach", "HARRIS BEACH", "Harris Beach PLLC"], ["harrisbeach.com"]),
  ("Hawkins Delafield & Wood", ["Hawkins Delafield & Wood", "Hawkins", "HAWKINS"], ["hawkins.com"]),
  ("Kutak Rock", ["Kutak Rock", "KUTAK ROCK", "Kutak Rock LLP"], ["kutakrock.com"]),
  ("McGuireWoods", ["McGuireWoods", "McGuire Woods", "MCGUIREWOODS"], ["mcguirewoods.com"]),
  ("Mintz Levin", ["Mintz Levin", "Mintz", "MINTZ"], ["mintz.com"]),
  ("Norton Rose Fulbright", ["Norton Rose Fulbright", "Norton Rose", "NORTON ROSE FULBRIGHT"], ["nortonrosefulbright.com"]),
  ("Orrick Herrington", ["Orrick Herrington", "Orrick", "ORRICK"], ["orrick.com"]),
  ("Quarles & Brady", ["Quarles & Brady", "Quarles", "QUARLES"], ["quarles.com"]),
  ("Squire Patton Boggs", ["Squire Patton Boggs", "Squire", "SQUIRE PATTON BOGGS"], ["squirepattonboggs.com"]),
  ("Taft Stettinius & Hollister", ["Taft Stettinius & Hollister", "Taft Law", "TAFT"], ["taftlaw.com"]),
  ("Holley Pearson Farrer", ["Holley Pearson Farrer", "Holley Pearson Farrer & Associates"], ["holleypearsonfarrer.com"]),
  ("Hinckley Allen", ["Hinckley Allen", "HINCKLEY ALLEN", "Hinckley Allen LLP"], ["hinckleyallen.com", "www.hinckleyallen.com"]),
  ("Calfee Halter & Griswold", ["Calfee Halter & Griswold", "Calfee", "CALFEE", "Calfee Law"], ["calfee.com"]),
  ("Friday Eldredge & Clark", ["Friday Eldredge & Clark", "Friday Firm", "FRIDAY", "Friday Law"], ["fridayfirm.com"]),
  ("Llorente & Heckler", ["Llorente & Heckler", "Llorente and Heckler", "LLORENTE HECKLER"], ["llorenteheckler.com"]),
  ("Turner Law", ["Turner Law", "Turner Law PC", "TURNER LAW"], ["turnerlawpc.com"]),
  ("Barclay Damon", ["Barclay Damon", "Barclay Damon LLP", "BARCLAY DAMON"], ["barclaydamon.com"]),
  ("Best Best & Krieger", ["Best Best & Krieger", "BBK Law", "BB&K", "Best Best and Krieger"], ["bbklaw.com"]),
  ("Buchanan Ingersoll & Rooney", ["Buchanan Ingersoll & Rooney", "Buchanan Ingersoll", "BIPC", "Buchanan Law"], ["bipc.com"]),
  ("Bond Schoeneck & King", ["Bond Schoeneck & King", "Bond Schoeneck", "BSK Law", "BSK"], ["bsk.com"]),
  ("Butler Snow", ["Butler Snow", "Butler Snow LLP", "BUTLER SNOW"], ["butlersnow.com"]),
  (("Cozen O" ++ aposStr ++ "Connor"), [("Cozen O" ++ aposStr ++ "Connor"), "Cozen", "COZEN", ("Cozen O" ++ aposStr ++ "Connor PC")], ["cozen.com"]),
  ("Dilworth Paxson", ["Dilworth Paxson", "Dilworth", "DILWORTH", "Dilworth Paxson LLP"], ["dilworthlaw.com"]),
  ("D. Seaton & Associates", ["D. Seaton & Associates", "D Seaton", "D. Seaton", "Seaton & Associates"], ["dseatonaa.com"]),
  ("Eckert Seamans", ["Eckert Seamans", "Eckert Seamans Cherin & Mellott", "ECKERT SEAMANS"], ["eckertseamans.com"]),
  ("Foster Garvey", ["Foster Garvey", "Foster Garvey PC", "FOSTER GARVEY", "Foster Law"], ["foster.com"]),
  ("Frost Brown Todd", ["Frost Brown Todd", "Frost Brown Todd LLC", "FBT Law", "FROST BROWN TODD"], ["frostbrowntodd.com"]),
  ("Fryberger Buchanan", ["Fryberger Buchanan", "Fryberger", "FRYBERGER", "Fryberger Law"], ["fryberger.com"]),
  ("Gordon Rees Scully Mansukhani", ["Gordon Rees Scully Mansukhani", "Gordon & Rees", "GRSM", "GPW Law"], ["gpwlawfirm.com"]),
  ("GrayRobinson", ["GrayRobinson", "Gray Robinson", "GRAY ROBINSON", "GrayRobinson PA"], ["gray-robinson.com"]),
  ("Greensfelder", ["Greensfelder", "Greensfelder, Hemker & Gale", "GREENSFELDER", "Greensfelder Law"], ["greensfelder.com"]),
  ("Greenberg Traurig", ["Greenberg Traurig", "GT Law", "GREENBERG TRAURIG", "Greenberg Traurig LLP"], ["gtlaw.com"]),
  ("Hall Render", ["Hall Render", "Hall Render Killian Heath & Lyman", "HALL RENDER", "Hall Render Law"], ["hallrender.com"]),
  ("Hillis Clark Martin & Peterson", ["Hillis Clark Martin & Peterson", "HCMP", "Hillis Clark", "HCMP Law"], ["hcmp.com"]),
  ("Ice Miller", ["Ice Miller", "Ice Miller LLP", "ICE MILLER", "Ice Miller Law"], ["icemiller.com"]),
  ("Jones Walker", ["Jones Walker", "Jones Walker LLP", "JONES WALKER", "Jones Walker Law"], ["joneswalker.com"]),
  ("Jackson Walker", ["Jackson Walker", "Jackson Walker LLP", "JACKSON WALKER", "JW Law"], ["jw.com"]),
  ("Kelly Hart", ["Kelly Hart", "Kelly Hart & Hallman", "KELLY HART", "Kelly Hart Law"], ["kellyhart.com"]),
  ("K&L Gates", ["K&L Gates", "KL Gates", "K AND L GATES", "K&L Gates LLP"], ["klgates.com"]),
  ("King & Spalding", ["King & Spalding", "King and Spalding", "KING & SPALDING", "King & Spalding LLP"], ["kslaw.com"]),
  ("Locke Lord", ["Locke Lord", "Locke Lord LLP", "LOCKE LORD", "Locke Lord Law"], ["lockelord.com"]),
  ("Maynard Cooper & Gale", ["Maynard Cooper & Gale", "Maynard Cooper", "MAYNARD COOPER", "Maynard Law"], ["maynardcooper.com"]),
  ("Miller Canfield", ["Miller Canfield", "Miller, Canfield, Paddock and Stone", "MILLER CANFIELD", "Miller Canfield Law"], ["millercanfield.com"]),
  ("Modrall Sperling", ["Modrall Sperling", "Modrall", "MODRALL", "Modrall Law"], ["modrall.com"]),
  ("Nixon Peabody", ["Nixon Peabody", "Nixon Peabody LLP", "NIXON PEABODY", "Nixon Law"], ["nixonpeabody.com"]),
  ("Pacifica Law Group", ["Pacifica Law Group", "Pacifica Law", "PACIFICA", "Pacifica Legal"], ["pacificalawgroup.com"]),
  ("Parker Poe", ["Parker Poe", "Parker Poe Adams & Bernstein", "PARKER POE", "Parker Poe Law"], ["parkerpoe.com"]),
  ("Polsinelli", ["Polsinelli", "Polsinelli PC", "POLSINELLI", "Polsinelli Law"], ["polsinelli.com"]),
  ("Pope Flynn", ["Pope Flynn", "Pope Flynn Group", "POPE FLYNN", "Pope Flynn LLC"], ["popeflynn.com"]),
  ("Pullman & Comley", ["Pullman & Comley", "Pullman & Comley LLC", "PULLMAN", "Pullman Law"], ["pullcom.com"]),
  ("Quilling Selander", ["Quilling Selander", "Quilling, Selander, Lownds, Winslett & Moser", "QUILLING", "QT Law"], ["qtllp.com"]),
  ("Ropes & Gray", ["Ropes & Gray", "Ropes and Gray", "ROPES & GRAY", "Ropes & Gray LLP"], ["ropesgray.com"]),
  ("Savage Law Partners", ["Savage Law Partners", "Savage Law", "SAVAGE LAW", "Savage Law Partners LLP"], ["savagelawpartners.com"]),
  ("Smith Gambrell & Russell", ["Smith Gambrell & Russell", "Smith Gambrell", "SGR Law", "SGR"], ["sgrlaw.com"]),
  ("Sherman & Howard", ["Sherman & Howard", "Sherman and Howard", "SHERMAN HOWARD", "Sherman & Howard LLC"], ["shermanhoward.com"]),
  ("Stradling Yocca Carlson & Rauth", ["Stradling Yocca Carlson & Rauth", "Stradling", "SYCR", "Stradling Law"], ["sycr.com"]),
  ("Thompson Hine", ["Thompson Hine", "Thompson Hine LLP", "THOMPSON HINE", "Thompson Law"], ["thompsonhine.com"])
]
/-- The seed entries with strings in `Str` form. -/
def seedEntries : List (Str × List Str × List Str) :=
  all_companies.map (fun e => (e.1.data, e.2.1.map String.data, e.2.2.map String.data))

/-- The standardizer produced by `CompanyStandardizer.__init__`: starting from
empty tables, `initialize_companies` registers every seed entry in order. -/
def seedStandardizer : CompanyStandardizer :=
  seedEntries.foldl (fun S e => add_company S e.1 e.2.1 e.2.2) ⟨[], [], []⟩
/-! ## `scrape/deal_info/__init__.py`: `standardize_scraped_data` -/

/-- The raw scraped record: each slot may be absent (`none`) or hold the
as-scraped list of strings; `os_file_path` as passed through. -/
structure RawDealData where
  lead_managers : Option (List Str)
  co_managers : Option (List Str)
  municipal_advisors : Option (List Str)
  counsels : Option (List Str)
  os_file_path : Option Str
deriving DecidableEq

/-- The `unprocessed_deal_scrape` audit copy (`data.get(field, [])`). -/
structure UnprocessedDealScrape where
  lead_managers : List Str
  co_managers : List Str
  municipal_advisors : List Str
  counsels : List Str
deriving DecidableEq

/-- The standardized output record. -/
structure StandardizedDeal where
  lead_managers : List Str
  co_managers : List Str
  municipal_advisors : List Str
  counsels : List Str
  os_file_path : Option Str
  unprocessed_deal_scrape : UnprocessedDealScrape
deriving DecidableEq

/-- `logging.error("No lead managers found - this is a required field")`. -/
def missingLeadMsg : Str := "No lead managers found - this is a required field".data

/-- `logging.warning(f"Unknown lead manager name: {manager}")`. -/
def leadWarnMsg (manager : Str) : Str := "Unknown lead manager name: ".data ++ manager

/-- `field.replace("_", " ")` (the replaced pattern is a single character). -/
def fieldDisplay (field : Str) : Str := field.map (fun c => if c = '_' then ' ' else c)

/-- `logging.warning(f"Unknown {field.replace('_', ' ')} name: {item}")`. -/
def unknownWarnMsg (field : Str) (item : Str) : Str :=
  "Unknown ".data ++ fieldDisplay field ++ " name: ".data ++ item

/-- The per-slot loop: skip falsy entries, keep the canonical name when the
resolver finds one, otherwise keep the raw entry and record a warning.
Returns (standardized slot, warnings in iteration order). -/
def standardizeItems (S : CompanyStandardizer) (mkWarn : Str → Str) :
    List Str → List Str × List Str
  | [] => ([], [])
  | item :: rest =>
    let tail := standardizeItems S mkWarn rest
    if item = [] then tail
    else
      match get_canonical_name S item with
      | some canonical => (canonical :: tail.1, tail.2)
      | none => (item :: tail.1, mkWarn item :: tail.2)

/-- `standardize_scraped_data`: fail closed (empty output) when the
`lead_managers` slot is absent or empty, otherwise standardize every slot and
embed the raw audit copy.  The second component is the list of log messages
emitted, in order. -/
def standardize_scraped_data (data : RawDealData) (S : CompanyStandardizer) :
    Option StandardizedDeal × List Str :=
  match data.lead_managers with
  | none => (none, [missingLeadMsg])
  | some [] => (none, [missingLeadMsg])
  | some (l0 :: ls) =>
    let lead := standardizeItems S leadWarnMsg (l0 :: ls)
    let co := standardizeItems S (unknownWarnMsg "co_managers".data) (data.co_managers.getD [])
    let ma := standardizeItems S (unknownWarnMsg "municipal_advisors".data)
      (data.municipal_advisors.getD [])
    let cs := standardizeItems S (unknownWarnMsg "counsels".data) (data.counsels.getD [])
    (some { lead_managers := lead.1
            co_managers := co.1
            municipal_advisors := ma.1
            counsels := cs.1
            os_file_path := data.os_file_path
            unprocessed_deal_scrape :=
              ⟨l0 :: ls, data.co_managers.getD [], data.municipal_advisors.getD [],
                data.counsels.getD []⟩ },
     lead.2 ++ co.2 ++ ma.2 ++ cs.2)

/-! ## `spacy_find_ud/overrides.py` and the override step of `main.py` -/

/-- Python values stored in a deal record (the fields touched here are
strings, numbers or `None`). -/
inductive PyVal where
  | pstr (s : Str)
  | pnum (q : ℚ)
  | pnone
deriving DecidableEq

/-- The `overrides` table: source URL → field → replacement value. -/
def overrides : Dict (Dict PyVal) :=
  [("https://www.munios.com/munios-notice.aspx?e=602FW".data,
    [("os_type".data, PyVal.pstr "COMMERCIAL PAPER OFFERING MEMORANDUM".data)])]

/-- `deal_data.get("url", "N/A")` as used for the override key: an absent
field yields `"N/A"`; a non-string value can never equal a (string) key of
`overrides`, so it is likewise mapped to the non-key `"N/A"`. -/
def urlOf (deal_data : Dict PyVal) : Str :=
  match dictGet deal_data "url".data with
  | some (PyVal.pstr u) => u
  | _ => "N/A".data

/-- The override application step of `process_pdf_discounts` (main.py lines
101–117): when the record's URL is a key of `overrides`, record each
overridden field's prior value (`deal_data.get(field, None)`) into the change
log and overwrite the field; otherwise leave the record as is with an empty
change log. -/
def applyOverrides (deal_data : Dict PyVal) : Dict PyVal × List (Str × Option PyVal) :=
  match dictGet overrides (urlOf deal_data) with
  | none => (deal_data, [])
  | some ov =>
    let override_changes := ov.map (fun p => (p.1, dictGet deal_data p.1))
    (ov.foldl (fun d p => dictInsert d p.1 p.2) deal_data, override_changes)
/-! ## `spacy/find_underwriter_discount.py`: the pattern cascade -/

/-- Abstract syntax of the Python `re` expressions used by the fee extractor:
character classes, sequencing, left-preferring alternation, greedy and lazy
option and star, and the single capturing group each pattern carries. -/
inductive RE where
  | eps
  | cls (p : Char → Bool)
  | seq (a b : RE)
  | alt (a b : RE)
  | opt (lz : Bool) (a : RE)
  | star (lz : Bool) (a : RE)
  | group (a : RE)

/-- Node count of a regex, used to provision matching fuel. -/
def reSize : RE → Nat
  | .eps => 1
  | .cls _ => 1
  | .seq a b => reSize a + reSize b + 1
  | .alt a b => reSize a + reSize b + 1
  | .opt _ a => reSize a + 1
  | .star _ a => reSize a + 1
  | .group a => reSize a + 1

/-- Backtracking matcher in continuation-passing style with Python `re`
semantics for the constructs above: alternation prefers its left arm, greedy
operators try the longer expansion first and lazy ones the shorter, and a
starred body that consumes nothing ends the iteration (as Python's engine
does).  `cap` is the current text of the capturing group.  `fuel` bounds the
depth of the recursion; `matchAt` supplies enough that it is never exhausted
on the patterns below, whose starred bodies all consume at least one
character per iteration. -/
def mtch : Nat → RE → Str → Option Str →
    (Str → Option Str → Option (Str × Str)) → Option (Str × Str)
  | 0, _, _, _, _ => none
  | Nat.succ fuel, r, s, cap, k =>
    match r with
    | .eps => k s cap
    | .cls p =>
      match s with
      | [] => none
      | c :: rest => if p c then k rest cap else none
    | .seq a b => mtch fuel a s cap (fun s1 c1 => mtch fuel b s1 c1 k)
    | .alt a b =>
      match mtch fuel a s cap k with
      | some res => some res
      | none => mtch fuel b s cap k
    | .opt lz a =>
      if lz then
        match k s cap with
        | some res => some res
        | none => mtch fuel a s cap k
      else
        match mtch fuel a s cap k with
        | some res => some res
        | none => k s cap
    | .star lz a =>
      let cont := fun s1 c1 =>
        if s1.length < s.length then mtch fuel (.star lz a) s1 c1 k else none
      if lz then
        match k s cap with
        | some res => some res
        | none => mtch fuel a s cap cont
      else
        match mtch fuel a s cap cont with
        | some res => some res
        | none => k s cap
    | .group a =>
      mtch fuel a s cap (fun s1 _ => k s1 (some (s.take (s.length - s1.length))))

/-- Anchored match of `r` at the start of `s`: on success, the text of the
capturing group and the input remaining after the match.  (In each pattern
below the group participates in every successful match.) -/
def matchAt (r : RE) (s : Str) : Option (Str × Str) :=
  mtch ((reSize r + 2) * (s.length + 2)) r s none
    (fun rest cap =>
      match cap with
      | some c => some (c, rest)
      | none => none)

/-- `pattern.finditer(text)`: scan left to right, trying an anchored match at
each position; on a match emit the captured group and resume at the match
end (advancing one character on an empty match, as Python does). -/
def findIter : Nat → RE → Str → List Str
  | 0, _, _ => []
  | Nat.succ fuel, r, s =>
    match matchAt r s with
    | some (cap, rest) =>
      if rest.length < s.length then cap :: findIter fuel r rest
      else
        match s with
        | [] => [cap]
        | _ :: tail => cap :: findIter fuel r tail
    | none =>
      match s with
      | [] => []
      | _ :: tail => findIter fuel r tail

/-- A literal character, compared case-insensitively (all five patterns are
compiled with `re.IGNORECASE`). -/
def chC (c : Char) : RE := RE.cls (fun x => x.toLower = c.toLower)

/-- A literal word, case-insensitively. -/
def strR (w : String) : RE := w.data.foldr (fun c r => RE.seq (chC c) r) RE.eps

/-- Greedy `+`: one copy then a greedy star. -/
def plusG (r : RE) : RE := RE.seq r (RE.star false r)

/-- `\s`. -/
def wsC : RE := RE.cls isPyWS

/-- `\s+`. -/
def wsPlus : RE := plusG wsC

/-- `\s*`. -/
def wsStar : RE := RE.star false wsC

/-- `\d`. -/
def digitC : RE := RE.cls Char.isDigit

/-- `.` under DOTALL, and `[\s\S]`. -/
def anyC : RE := RE.cls (fun _ => true)

/-- `['’]`: ASCII apostrophe or U+2019 right single quote. -/
def aposC : RE := RE.cls (fun c => c = Char.ofNat 39 || c = Char.ofNat 8217)

/-- Right-nested sequencing of a pattern's parts. -/
def seqs : List RE → RE
  | [] => RE.eps
  | [r] => r
  | r :: rs => RE.seq r (seqs rs)

/-- `(?:underwriting|underwriter|purchaser)`. -/
def kwRE : RE := RE.alt (strR "underwriting") (RE.alt (strR "underwriter") (strR "purchaser"))

/-- `(?:s|['’]s|s['’]?)?` — the optional possessive forms. -/
def possRE : RE :=
  RE.opt false (RE.alt (chC 's')
    (RE.alt (RE.seq aposC (chC 's')) (RE.seq (chC 's') (RE.opt false aposC))))

/-- `(?:compensation|discount|fee|expenses)`. -/
def chargeRE : RE :=
  RE.alt (strR "compensation") (RE.alt (strR "discount") (RE.alt (strR "fee") (strR "expenses")))

/-- `(\d+(?:,?\d+)*(?:\.\d+)?)` — the capturing group of patterns 1–4. -/
def numGroup : RE :=
  RE.group (RE.seq (plusG digitC)
    (RE.seq (RE.star false (RE.seq (RE.opt false (chC ',')) (plusG digitC)))
      (RE.opt false (RE.seq (chC '.') (plusG digitC)))))

/-- The trailing `,?` of patterns 1–3. -/
def commaOpt : RE := RE.opt false (chC ',')

/-- Pattern 1 (`of_pattern`):
`(?:kw poss \s+ charge \s+ (?:[^$]*?\s+)? of \s+)\$(num),?`. -/
def of_pattern : RE :=
  seqs [kwRE, possRE, wsPlus, chargeRE, wsPlus,
    RE.opt false (RE.seq (RE.star true (RE.cls (fun c => c ≠ '$'))) wsPlus),
    strR "of", wsPlus, chC '$', numGroup, commaOpt]

/-- Pattern 2 (`is_pattern`):
`(?:kw poss \s* charge [\s\S]*? (?:is|will\s+be) \s*)\$(num),?`. -/
def is_pattern : RE :=
  seqs [kwRE, possRE, wsStar, chargeRE, RE.star true anyC,
    RE.alt (strR "is") (seqs [strR "will", wsPlus, strR "be"]),
    wsStar, chC '$', numGroup, commaOpt]

/-- Pattern 3 (`will_pay_pattern`):
`(?:will\s+(?:also\s+)?pay\s+the\s+(?:underwriter(?:s)?|purchaser(?:s)?)\s+a\s+fee).*?\$(num),?`
with DOTALL. -/
def will_pay_pattern : RE :=
  seqs [strR "will", wsPlus, RE.opt false (RE.seq (strR "also") wsPlus),
    strR "pay", wsPlus, strR "the", wsPlus,
    RE.alt (RE.seq (strR "underwriter") (RE.opt false (chC 's')))
      (RE.seq (strR "purchaser") (RE.opt false (chC 's'))),
    wsPlus, strR "a", wsPlus, strR "fee",
    RE.star true anyC, chC '$', numGroup, commaOpt]

/-- Pattern 4 (`before_discount_pattern`):
`\$(num)(?:\s+of\s+kw poss \s+(?:discount|fees|expenses))`. -/
def before_discount_pattern : RE :=
  seqs [chC '$', numGroup, wsPlus, strR "of", wsPlus, kwRE, possRE, wsPlus,
    RE.alt (strR "discount") (RE.alt (strR "fees") (strR "expenses"))]

/-- The capturing group of pattern 5, `(\d+(?:,?\d+)*(?:\.\d+?))`: unlike
patterns 1–4 the fractional part is mandatory and its digits are lazy. -/
def numGroup5 : RE :=
  RE.group (RE.seq (plusG digitC)
    (RE.seq (RE.star false (RE.seq (RE.opt false (chC ',')) (plusG digitC)))
      (RE.seq (chC '.') (RE.seq digitC (RE.star true digitC)))))

/-- `(?:\s|\n)`. -/
def wsOrNl : RE := RE.alt wsC (RE.cls (fun c => c = '\n'))

/-- Pattern 5 (`compensation_pattern`):
`\$(num5)(?:\s|\n)*as\s+compensation\s+for(?:\s|\n)*(?:underwriting|purchasing)`. -/
def compensation_pattern : RE :=
  seqs [chC '$', numGroup5, RE.star false wsOrNl, strR "as", wsPlus,
    strR "compensation", wsPlus, strR "for", RE.star false wsOrNl,
    RE.alt (strR "underwriting") (strR "purchasing")]

/-- The pattern cascade, in the order the source applies it. -/
def fee_patterns : List RE :=
  [of_pattern, is_pattern, will_pay_pattern, before_discount_pattern, compensation_pattern]

/-- `int(digits)` on a (possibly empty) digit string. -/
def digitsToNat (s : Str) : Nat := s.foldl (fun n c => n * 10 + (c.toNat - 48)) 0

/-- Python `float(s)` on the decimal shapes the captures above can produce
(digit string with an optional fractional part): exact rational value.  The
other syntaxes `float` accepts (signs, exponents, `inf`/`nan`) are not
reachable from those captures and yield `none` here, matching the
`except ValueError` discard path. -/
def parseFloat (s : Str) : Option ℚ :=
  let t := pyStrip s
  let intPart := t.takeWhile Char.isDigit
  let rest := t.dropWhile Char.isDigit
  match rest with
  | [] => if intPart.isEmpty then none else some ((digitsToNat intPart : ℚ))
  | c :: frac =>
    if c == '.' && frac.all Char.isDigit && (!intPart.isEmpty || !frac.isEmpty) then
      some ((digitsToNat intPart : ℚ) + (digitsToNat frac : ℚ) / ((10 : ℚ) ^ frac.length))
    else none

/-- The `scrape_breakdown` part of the extraction result. -/
structure ScrapeBreakdown where
  amounts : List ℚ
  are_amounts_identical : Bool
  is_dupe_review_completed : Bool
deriving DecidableEq

/-- The fee extraction result returned on success. -/
structure FeeExtractionResult where
  total : ℚ
  scrape_breakdown : ScrapeBreakdown
deriving DecidableEq

/-- The candidate amounts one page contributes: for each pattern in cascade
order, every `finditer` capture with commas removed and parsed by `float`,
unparseable captures discarded. -/
def pageAmounts (text : Str) : List ℚ :=
  fee_patterns.flatMap (fun p =>
    (findIter (text.length + 1) p text).filterMap
      (fun cap => parseFloat (cap.filter (fun c => c ≠ ','))))

/-- `extract_underwriting_discount_from_pdf`, on the document's text already
segmented by page (the PDF I/O is the excluded collaborator's job): collect
every candidate across pages and patterns; `none` when there are no
candidates; otherwise `are_amounts_identical` is `len(set(amounts)) == 1`
(one distinct element, i.e. `dedup` is a singleton), `total` is the first
amount when all agree and the sum otherwise, and review is still pending iff
more than one candidate was collected. -/
def extract_underwriting_discount_from_pdf (pages : List Str) : Option FeeExtractionResult :=
  let amounts := pages.flatMap pageAmounts
  if amounts.isEmpty then none
  else
    let are_identical : Bool := amounts.dedup.length == 1
    let total : ℚ := if are_identical then amounts.headD 0 else amounts.sum
    let needs_review : Bool := decide (1 < amounts.length)
    some ⟨total, ⟨amounts, are_identical, !needs_review⟩⟩
/-! ## Concrete instances used by the witnesses -/

/-- Concrete page for the C1 witness. -/
def c1Pages : List Str := ["underwriting fee of $5".data]

/-- The extraction result on `c1Pages`. -/
def c1Res : FeeExtractionResult := ⟨5, ⟨[5], true, true⟩⟩

/-- Concrete pages for the C9 witness: the same sentence on two pages gives
two identical candidates. -/
def c9Pages : List Str := ["underwriting fee of $5".data, "underwriting fee of $5".data]

/-- The extraction result on `c9Pages`. -/
def c9Res : FeeExtractionResult := ⟨5, ⟨[5, 5], true, false⟩⟩

/-- A URL-shaped input for the C4 witness. -/
def c4Raw : Str := "www.barclays.com".data

/-- A record with an empty lead-managers slot but fully populated other
slots, for the C5 witness. -/
def c5Data : RawDealData :=
  { lead_managers := some []
    co_managers := some ["Barclays".data]
    municipal_advisors := some ["PFM".data]
    counsels := some ["Ropes & Gray".data]
    os_file_path := some "deal.pdf".data }

/-- A record whose URL is not in the override table, for the C7 witness. -/
def c7Data : Dict PyVal :=
  [("url".data, PyVal.pstr "https://www.munios.com/munios-notice.aspx?e=OTHER".data),
   ("os_type".data, PyVal.pstr "OFFICIAL STATEMENT".data),
   ("underwriters_fee_total".data, PyVal.pnum 5)]

/-- Concrete instantiation pieces for the C8 witness. -/
def c8V2 : List Str := [" Acme ".data, "ACME Inc".data]

/-- Concrete website list for the C8 witness. -/
def c8W2 : List Str := ["https://www.Acme.com/about".data]

/-- A record refuting C6 as stated: one co-manager entry is empty, so an
unknown non-empty co-manager is kept but the slot still shrinks. -/
def c6Data : RawDealData :=
  { lead_managers := some ["Barclays".data]
    co_managers := some [[], "Zzz Nope Co".data]
    municipal_advisors := none
    counsels := none
    os_file_path := none }

/-- A warning emitted on `c6Data`, for the C10 witness. -/
def c10Warn : Str := unknownWarnMsg "co_managers".data "Zzz Nope Co".data

/-! ## Side conditions of the registered variants and domains -/

/-- Side conditions a registered name variant satisfies (checked over the
seed data by computation): non-empty, already stripped, not URL-shaped, and
not a prefix of any of the URL markers. -/
def GoodVariant (v : Str) : Prop :=
  v ≠ [] ∧ trimLeft v = v ∧ trimRight v = v ∧ urlLike v = false ∧
  ¬ v <+: httpS ∧ ¬ v <+: httpsS ∧ ¬ v <+: wwwS

instance (v : Str) : Decidable (GoodVariant v) := by
  unfold GoodVariant
  infer_instance

/-- Side conditions a registered (cleaned, non-falsy) domain satisfies,
checked over the seed data by computation: non-empty; free of whitespace,
slashes and upper-case letters; and unconfusable with the URL markers the
cleaning regex strips. -/
def GoodDomain (d : Str) : Prop :=
  d ≠ [] ∧ (∀ c ∈ d, isPyWS c = false ∧ c ≠ '/' ∧ c.toLower = c) ∧
  ¬ httpS <+: d ∧ ¬ d <+: httpS ∧ ¬ httpsS <+: d ∧ ¬ d <+: httpsS ∧
  ¬ wwwS <+: d ∧ ¬ d <+: wwwS

instance (d : Str) : Decidable (GoodDomain d) := by
  unfold GoodDomain
  infer_instance

/-- The value of the seed name index, written out: newest binding first. -/
def nameIdxRaw : List (String × String) := [
  ("Thompson Law", "Thompson Hine"),
  ("THOMPSON HINE", "Thompson Hine"),
  ("Thompson Hine LLP", "Thompson Hine"),
  ("Thompson Hine", "Thompson Hine"),
  ("Stradling Law", "Stradling Yocca Carlson & Rauth"),
  ("SYCR", "Stradling Yocca Carlson & Rauth"),
  ("Stradling", "Stradling Yocca Carlson & Rauth"),
  ("Stradling Yocca Carlson & Rauth", "Stradling Yocca Carlson & Rauth"),
  ("Sherman & Howard LLC", "Sherman & Howard"),
  ("SHERMAN HOWARD", "Sherman & Howard"),
  ("Sherman and Howard", "Sherman & Howard"),
  ("Sherman & Howard", "Sherman & Howard"),
  ("SGR", "Smith Gambrell & Russell"),
  ("SGR Law", "Smith Gambrell & Russell"),
  ("Smith Gambrell", "Smith Gambrell & Russell"),
  ("Smith Gambrell & Russell", "Smith Gambrell & Russell"),
  ("Savage Law Partners LLP", "Savage Law Partners"),
  ("SAVAGE LAW", "Savage Law Partners"),
  ("Savage Law", "Savage Law Partners"),
  ("Savage Law Partners", "Savage Law Partners"),
  ("Ropes & Gray LLP", "Ropes & Gray"),
  ("ROPES & GRAY", "Ropes & Gray"),
  ("Ropes and Gray", "Ropes & Gray"),
  ("Ropes & Gray", "Ropes & Gray"),
  ("QT Law", "Quilling Selander"),
  ("QUILLING", "Quilling Selander"),
  ("Quilling, Selander, Lownds, Winslett & Moser", "Quilling Selander"),
  ("Quilling Selander", "Quilling Selander"),
  ("Pullman Law", "Pullman & Comley"),
  ("PULLMAN", "Pullman & Comley"),
  ("Pullman & Comley LLC", "Pullman & Comley"),
  ("Pullman & Comley", "Pullman & Comley"),
  ("Pope Flynn LLC", "Pope Flynn"),
  ("POPE FLYNN", "Pope Flynn"),
  ("Pope Flynn Group", "Pope Flynn"),
  ("Pope Flynn", "Pope Flynn"),
  ("Polsinelli Law", "Polsinelli"),
  ("POLSINELLI", "Polsinelli"),
  ("Polsinelli PC", "Polsinelli"),
  ("Polsinelli", "Polsinelli"),
  ("Parker Poe Law", "Parker Poe"),
  ("PARKER POE", "Parker Poe"),
  ("Parker Poe Adams & Bernstein", "Parker Poe"),
  ("Parker Poe", "Parker Poe"),
  ("Pacifica Legal", "Pacifica Law Group"),
  ("PACIFICA", "Pacifica Law Group"),
  ("Pacifica Law", "Pacifica Law Group"),
  ("Pacifica Law Group", "Pacifica Law Group"),
  ("Nixon Law", "Nixon Peabody"),
  ("NIXON PEABODY", "Nixon Peabody"),
  ("Nixon Peabody LLP", "Nixon Peabody"),
  ("Nixon Peabody", "Nixon Peabody"),
  ("Modrall Law", "Modrall Sperling"),
  ("MODRALL", "Modrall Sperling"),
  ("Modrall", "Modrall Sperling"),
  ("Modrall Sperling", "Modrall Sperling"),
  ("Miller Canfield Law", "Miller Canfield"),
  ("MILLER CANFIELD", "Miller Canfield"),
  ("Miller, Canfield, Paddock and Stone", "Miller Canfield"),
  ("Miller Canfield", "Miller Canfield"),
  ("Maynard Law", "Maynard Cooper & Gale"),
  ("MAYNARD COOPER", "Maynard Cooper & Gale"),
  ("Maynard Cooper", "Maynard Cooper & Gale"),
  ("Maynard Cooper & Gale", "Maynard Cooper & Gale"),
  ("Locke Lord Law", "Locke Lord"),
  ("LOCKE LORD", "Locke Lord"),
  ("Locke Lord LLP", "Locke Lord"),
  ("Locke Lord", "Locke Lord"),
  ("King & Spalding LLP", "King & Spalding"),
  ("KING & SPALDING", "King & Spalding"),
  ("King and Spalding", "King & Spalding"),
  ("King & Spalding", "King & Spalding"),
  ("K&L Gates LLP", "K&L Gates"),
  ("K AND L GATES", "K&L Gates"),
  ("KL Gates", "K&L Gates"),
  ("K&L Gates", "K&L Gates"),
  ("Kelly Hart Law", "Kelly Hart"),
  ("KELLY HART", "Kelly Hart"),
  ("Kelly Hart & Hallman", "Kelly Hart"),
  ("Kelly Hart", "Kelly Hart"),
  ("JW Law", "Jackson Walker"),
  ("JACKSON WALKER", "Jackson Walker"),
  ("Jackson Walker LLP", "Jackson Walker"),
  ("Jackson Walker", "Jackson Walker"),
  ("Jones Walker Law", "Jones Walker"),
  ("JONES WALKER", "Jones Walker"),
  ("Jones Walker LLP", "Jones Walker"),
  ("Jones Walker", "Jones Walker"),
  ("Ice Miller Law", "Ice Miller"),
  ("ICE MILLER", "Ice Miller"),
  ("Ice Miller LLP", "Ice Miller"),
  ("Ice Miller", "Ice Miller"),
  ("HCMP Law", "Hillis Clark Martin & Peterson"),
  ("Hillis Clark", "Hillis Clark Martin & Peterson"),
  ("HCMP", "Hillis Clark Martin & Peterson"),
  ("Hillis Clark Martin & Peterson", "Hillis Clark Martin & Peterson"),
  ("Hall Render Law", "Hall Render"),
  ("HALL RENDER", "Hall Render"),
  ("Hall Render Killian Heath & Lyman", "Hall Render"),
  ("Hall Render", "Hall Render"),
  ("Greenberg Traurig LLP", "Greenberg Traurig"),
  ("GREENBERG TRAURIG", "Greenberg Traurig"),
  ("GT Law", "Greenberg Traurig"),
  ("Greenberg Traurig", "Greenberg Traurig"),
  ("Greensfelder Law", "Greensfelder"),
  ("GREENSFELDER", "Greensfelder"),
  ("Greensfelder, Hemker & Gale", "Greensfelder"),
  ("Greensfelder", "Greensfelder"),
  ("GrayRobinson PA", "GrayRobinson"),
  ("GRAY ROBINSON", "GrayRobinson"),
  ("Gray Robinson", "GrayRobinson"),
  ("GrayRobinson", "GrayRobinson"),
  ("GPW Law", "Gordon Rees Scully Mansukhani"),
  ("GRSM", "Gordon Rees Scully Mansukhani"),
  ("Gordon & Rees", "Gordon Rees Scully Mansukhani"),
  ("Gordon Rees Scully Mansukhani", "Gordon Rees Scully Mansukhani"),
  ("Fryberger Law", "Fryberger Buchanan"),
  ("FRYBERGER", "Fryberger Buchanan"),
  ("Fryberger", "Fryberger Buchanan"),
  ("Fryberger Buchanan", "Fryberger Buchanan"),
  ("FROST BROWN TODD", "Frost Brown Todd"),
  ("FBT Law", "Frost Brown Todd"),
  ("Frost Brown Todd LLC", "Frost Brown Todd"),
  ("Frost Brown Todd", "Frost Brown Todd"),
  ("Foster Law", "Foster Garvey"),
  ("FOSTER GARVEY", "Foster Garvey"),
  ("Foster Garvey PC", "Foster Garvey"),
  ("Foster Garvey", "Foster Garvey"),
  ("ECKERT SEAMANS", "Eckert Seamans"),
  ("Eckert Seamans Cherin & Mellott", "Eckert Seamans"),
  ("Eckert Seamans", "Eckert Seamans"),
  ("Seaton & Associates", "D. Seaton & Associates"),
  ("D. Seaton", "D. Seaton & Associates"),
  ("D Seaton", "D. Seaton & Associates"),
  ("D. Seaton & Associates", "D. Seaton & Associates"),
  ("Dilworth Paxson LLP", "Dilworth Paxson"),
  ("DILWORTH", "Dilworth Paxson"),
  ("Dilworth", "Dilworth Paxson"),
  ("Dilworth Paxson", "Dilworth Paxson"),
  (("Cozen O" ++ aposStr ++ "Connor PC"), ("Cozen O" ++ aposStr ++ "Connor")),
  ("COZEN", ("Cozen O" ++ aposStr ++ "Connor")),
  ("Cozen", ("Cozen O" ++ aposStr ++ "Connor")),
  (("Cozen O" ++ aposStr ++ "Connor"), ("Cozen O" ++ aposStr ++ "Connor")),
  ("BUTLER SNOW", "Butler Snow"),
  ("Butler Snow LLP", "Butler Snow"),
  ("Butler Snow", "Butler Snow"),
  ("BSK", "Bond Schoeneck & King"),
  ("BSK Law", "Bond Schoeneck & King"),
  ("Bond Schoeneck", "Bond Schoeneck & King"),
  ("Bond Schoeneck & King", "Bond Schoeneck & King"),
  ("Buchanan Law", "Buchanan Ingersoll & Rooney"),
  ("BIPC", "Buchanan Ingersoll & Rooney"),
  ("Buchanan Ingersoll", "Buchanan Ingersoll & Rooney"),
  ("Buchanan Ingersoll & Rooney", "Buchanan Ingersoll & Rooney"),
  ("Best Best and Krieger", "Best Best & Krieger"),
  ("BB&K", "Best Best & Krieger"),
  ("BBK Law", "Best Best & Krieger"),
  ("Best Best & Krieger", "Best Best & Krieger"),
  ("BARCLAY DAMON", "Barclay Damon"),
  ("Barclay Damon LLP", "Barclay Damon"),
  ("Barclay Damon", "Barclay Damon"),
  ("TURNER LAW", "Turner Law"),
  ("Turner Law PC", "Turner Law"),
  ("Turner Law", "Turner Law"),
  ("LLORENTE HECKLER", "Llorente & Heckler"),
  ("Llorente and Heckler", "Llorente & Heckler"),
  ("Llorente & Heckler", "Llorente & Heckler"),
  ("Friday Law", "Friday Eldredge & Clark"),
  ("FRIDAY", "Friday Eldredge & Clark"),
  ("Friday Firm", "Friday Eldredge & Clark"),
  ("Friday Eldredge & Clark", "Friday Eldredge & Clark"),
  ("Calfee Law", "Calfee Halter & Griswold"),
  ("CALFEE", "Calfee Halter & Griswold"),
  ("Calfee", "Calfee Halter & Griswold"),
  ("Calfee Halter & Griswold", "Calfee Halter & Griswold"),
  ("Hinckley Allen LLP", "Hinckley Allen"),
  ("HINCKLEY ALLEN", "Hinckley Allen"),
  ("Hinckley Allen", "Hinckley Allen"),
  ("Holley Pearson Farrer & Associates", "Holley Pearson Farrer"),
  ("Holley Pearson Farrer", "Holley Pearson Farrer"),
  ("TAFT", "Taft Stettinius & Hollister"),
  ("Taft Law", "Taft Stettinius & Hollister"),
  ("Taft Stettinius & Hollister", "Taft Stettinius & Hollister"),
  ("SQUIRE PATTON BOGGS", "Squire Patton Boggs"),
  ("Squire", "Squire Patton Boggs"),
  ("Squire Patton Boggs", "Squire Patton Boggs"),
  ("QUARLES", "Quarles & Brady"),
  ("Quarles", "Quarles & Brady"),
  ("Quarles & Brady", "Quarles & Brady"),
  ("ORRICK", "Orrick Herrington"),
  ("Orrick", "Orrick Herrington"),
  ("Orrick Herrington", "Orrick Herrington"),
  ("NORTON ROSE FULBRIGHT", "Norton Rose Fulbright"),
  ("Norton Rose", "Norton Rose Fulbright"),
  ("Norton Rose Fulbright", "Norton Rose Fulbright"),
  ("MINTZ", "Mintz Levin"),
  ("Mintz", "Mintz Levin"),
  ("Mintz Levin", "Mintz Levin"),
  ("MCGUIREWOODS", "McGuireWoods"),
  ("McGuire Woods", "McGuireWoods"),
  ("McGuireWoods", "McGuireWoods"),
  ("Kutak Rock LLP", "Kutak Rock"),
  ("KUTAK ROCK", "Kutak Rock"),
  ("Kutak Rock", "Kutak Rock"),
  ("HAWKINS", "Hawkins Delafield & Wood"),
  ("Hawkins", "Hawkins Delafield & Wood"),
  ("Hawkins Delafield & Wood", "Hawkins Delafield & Wood"),
  ("Harris Beach PLLC", "Harris Beach"),
  ("HARRIS BEACH", "Harris Beach"),
  ("Harris Beach", "Harris Beach"),
  ("GILMORE BELL", "Gilmore & Bell"),
  ("Gilmore and Bell", "Gilmore & Bell"),
  ("Gilmore & Bell", "Gilmore & Bell"),
  ("Fox Rothschild LLP", "Fox Rothschild"),
  ("FOX ROTHSCHILD", "Fox Rothschild"),
  ("Fox Rothschild", "Fox Rothschild"),
  ("FOLEY", "Foley & Lardner"),
  ("Foley", "Foley & Lardner"),
  ("Foley & Lardner", "Foley & Lardner"),
  ("DORSEY", "Dorsey & Whitney"),
  ("Dorsey", "Dorsey & Whitney"),
  ("Dorsey & Whitney", "Dorsey & Whitney"),
  ("DINSMORE", "Dinsmore & Shohl"),
  ("Dinsmore", "Dinsmore & Shohl"),
  ("Dinsmore & Shohl", "Dinsmore & Shohl"),
  ("Dickinson Wright PLLC", "Dickinson Wright"),
  ("DICKINSON WRIGHT", "Dickinson Wright"),
  ("Dickinson Wright", "Dickinson Wright"),
  ("Chapman", "Chapman and Cutler"),
  ("Chapman & Cutler", "Chapman and Cutler"),
  ("Chapman and Cutler", "Chapman and Cutler"),
  ("BRICKER", "Bricker & Eckler"),
  ("Bricker Graydon", "Bricker & Eckler"),
  ("Bricker & Eckler", "Bricker & Eckler"),
  ("Bracewell Law", "Bracewell"),
  ("Bracewell LLP", "Bracewell"),
  ("Bracewell", "Bracewell"),
  ("BT Law", "Barnes & Thornburg"),
  ("Barnes and Thornburg", "Barnes & Thornburg"),
  ("Barnes & Thornburg", "Barnes & Thornburg"),
  ("BASS BERRY", "Bass Berry & Sims"),
  ("Bass, Berry & Sims", "Bass Berry & Sims"),
  ("Bass Berry & Sims", "Bass Berry & Sims"),
  ("Ballard Spahr LLP", "Ballard Spahr"),
  ("BALLARD SPAHR", "Ballard Spahr"),
  ("Ballard Spahr", "Ballard Spahr"),
  ("BALCH", "Balch & Bingham"),
  ("Balch and Bingham", "Balch & Bingham"),
  ("Balch & Bingham", "Balch & Bingham"),
  ("MURRAY BARNES", "Murray Barnes Finister"),
  ("Murray Barnes Law", "Murray Barnes Finister"),
  ("Murray Barnes Finister", "Murray Barnes Finister"),
  ("Cantu Harden & Montoya", "Cantu Harden Montoya"),
  ("CANTU HARDEN MONTOYA", "Cantu Harden Montoya"),
  ("Cantu Harden Montoya", "Cantu Harden Montoya"),
  ("The Yuba Group", "Yuba Group"),
  ("Yuba", "Yuba Group"),
  ("YUBA GROUP", "Yuba Group"),
  ("Yuba Group", "Yuba Group"),
  ("Stifel, Nicolaus & Company", "Stifel"),
  ("Stifel Financial Corp.", "Stifel"),
  ("Stifel Financial", "Stifel"),
  ("STIFEL", "Stifel"),
  ("Stifel", "Stifel"),
  ("BAIRD", "Robert W. Baird"),
  ("Robert W. Baird & Co.", "Robert W. Baird"),
  ("R.W. Baird", "Robert W. Baird"),
  ("Baird", "Robert W. Baird"),
  ("Robert W. Baird", "Robert W. Baird"),
  ("Prager & Company, LLC", "Prager & Co."),
  ("Prager & Company", "Prager & Co."),
  ("PRAGER", "Prager & Co."),
  ("Prager", "Prager & Co."),
  ("Prager & Co.", "Prager & Co."),
  ("PRAG Advisors", "Public Resources Advisory Group"),
  ("Public Resources", "Public Resources Advisory Group"),
  ("PRAG", "Public Resources Advisory Group"),
  ("Public Resources Advisory Group", "Public Resources Advisory Group"),
  ("MARA Capital", "Marathon Capital"),
  ("Marathon", "Marathon Capital"),
  ("MARATHON CAPITAL", "Marathon Capital"),
  ("Marathon Capital", "Marathon Capital"),
  ("Majors", "The Majors Group"),
  ("MAJORS GROUP", "The Majors Group"),
  ("Majors Group", "The Majors Group"),
  ("The Majors Group", "The Majors Group"),
  ("Lamont Financial Services Corporation", "Lamont Financial Services"),
  ("LAMONT", "Lamont Financial Services"),
  ("Lamont Financial", "Lamont Financial Services"),
  ("Lamont Financial Services", "Lamont Financial Services"),
  ("HURON", "Huron Consulting Group"),
  ("Huron", "Huron Consulting Group"),
  ("Huron Consulting", "Huron Consulting Group"),
  ("Huron Consulting Group", "Huron Consulting Group"),
  ("HAMLIN", "Hamlin Capital Advisors"),
  ("Hamlin Advisors", "Hamlin Capital Advisors"),
  ("Hamlin Capital", "Hamlin Capital Advisors"),
  ("Hamlin Capital Advisors", "Hamlin Capital Advisors"),
  ("H2C Securities", "Hammond Hanlon Camp"),
  ("H2C", "Hammond Hanlon Camp"),
  ("Hammond Hanlon Camp LLC", "Hammond Hanlon Camp"),
  ("Hammond Hanlon Camp", "Hammond Hanlon Camp"),
  ("GOVCAP", "Government Capital Securities"),
  ("GovCap Securities", "Government Capital Securities"),
  ("Government Capital Securities Corporation", "Government Capital Securities"),
  ("Government Capital Securities", "Government Capital Securities"),
  ("FIRST TRYON", "First Tryon Advisors"),
  ("First Tryon", "First Tryon Advisors"),
  ("First Tryon Advisors", "First Tryon Advisors"),
  ("Evercrest Capital Advisors", "Evercrest Capital"),
  ("EVERCREST", "Evercrest Capital"),
  ("Evercrest Advisors", "Evercrest Capital"),
  ("Evercrest Capital", "Evercrest Capital"),
  ("BROWN ADVISORY", "Brown Advisory"),
  ("Brown Advisory LLC", "Brown Advisory"),
  ("Brown Advisory", "Brown Advisory"),
  ("Argent Financial Group, Inc.", "Argent Financial Group"),
  ("ARGENT", "Argent Financial Group"),
  ("Argent Financial", "Argent Financial Group"),
  ("Argent Financial Group", "Argent Financial Group"),
  ("Acacia Financial Group, Inc.", "Acacia Financial Group"),
  ("ACACIA", "Acacia Financial Group"),
  ("Acacia Financial", "Acacia Financial Group"),
  ("Acacia Financial Group", "Acacia Financial Group"),
  ("Autoridad de Asesor√≠a Financiera y Agencia Fiscal", "AAFAF"),
  ("Puerto Rico Fiscal Agency and Financial Advisory Authority", "AAFAF"),
  ("AAFAF", "AAFAF"),
  ("SFG", "Swap Financial Group"),
  ("SWAP Financial Group", "Swap Financial Group"),
  ("Swap Financial", "Swap Financial Group"),
  ("Swap Financial Group", "Swap Financial Group"),
  ("Ponder", "Ponder & Co."),
  ("Ponder & Company", "Ponder & Co."),
  ("Ponder and Company", "Ponder & Co."),
  ("Ponder & Co.", "Ponder & Co."),
  ("Melio Company", "Melio & Company"),
  ("Melio & Co", "Melio & Company"),
  ("Melio and Company", "Melio & Company"),
  ("Melio & Company", "Melio & Company"),
  ("Columbia Capital Management, LLC", "Columbia Capital"),
  ("Columbia Capital Management", "Columbia Capital"),
  ("Columbia Capital", "Columbia Capital"),
  ("FRA", "First River Advisory"),
  ("First River", "First River Advisory"),
  ("First River Advisory L.L.C", "First River Advisory"),
  ("First River Advisory LLC", "First River Advisory"),
  ("First River Advisory L.L.C.", "First River Advisory"),
  ("First River Advisory", "First River Advisory"),
  ("Public Financial Management", "PFM Financial Advisors"),
  ("PFM Financial Advisors LLC (MA)", "PFM Financial Advisors"),
  ("PFM Financial Advisors LLC", "PFM Financial Advisors"),
  ("PFM Financial Advisors", "PFM Financial Advisors"),
  ("PFM", "PFM Financial Advisors"),
  ("kaufm (MA)", "Kaufman Hall"),
  ("Kaufman, Hall & Associates, LLC (MA)", "Kaufman Hall"),
  ("Kaufman, Hall & Associates, LLC", "Kaufman Hall"),
  ("Kaufman, Hall & Associates", "Kaufman Hall"),
  ("Kaufman Hall", "Kaufman Hall"),
  ("HILLTOP", "Hilltop Securities"),
  ("HilltopSecurities", "Hilltop Securities"),
  ("Hilltop Securities Inc. (MA)", "Hilltop Securities"),
  ("Hilltop Securities Inc.", "Hilltop Securities"),
  ("Hilltop Securities", "Hilltop Securities"),
  ("Echo Financial Products, LLC (MA)", "Echo Financial Products"),
  ("Echo Financial Products, LLC", "Echo Financial Products"),
  ("Echo Financial Products", "Echo Financial Products"),
  ("Houlihan Lokey Capital, Inc (MA)", "Houlihan Lokey"),
  ("Houlihan Lokey Capital, Inc", "Houlihan Lokey"),
  ("Houlihan Lokey Capital", "Houlihan Lokey"),
  ("Houlihan Lokey", "Houlihan Lokey"),
  ("SDAOAS", "SDAO Advisory Services"),
  ("SDAO Advisory Services LLC", "SDAO Advisory Services"),
  ("SDAO Advisory Services", "SDAO Advisory Services"),
  ("UMB Bank n.a.", "UMB Financial"),
  ("UMB Financial Corporation", "UMB Financial"),
  ("UMB", "UMB Financial"),
  ("UMB Bank", "UMB Financial"),
  ("UMB Financial", "UMB Financial"),
  ("Frazer Lanier Company", "The Frazer Lanier Company"),
  ("FRAZER LANIER", "The Frazer Lanier Company"),
  ("Frazer Lanier", "The Frazer Lanier Company"),
  ("The Frazer Lanier Company", "The Frazer Lanier Company"),
  ("Blue River Analytics, LLC", "Blue River Analytics"),
  ("BRV LLC", "Blue River Analytics"),
  ("BRV", "Blue River Analytics"),
  ("Blue River", "Blue River Analytics"),
  ("Blue River Analytics", "Blue River Analytics"),
  ("Mesirow Financial Holdings, Inc.", "Mesirow Financial"),
  ("MESIROW", "Mesirow Financial"),
  ("Mesirow", "Mesirow Financial"),
  ("Mesirow Financial", "Mesirow Financial"),
  ("Opco", "Oppenheimer & Co."),
  ("Oppenheimer & Co. Inc.", "Oppenheimer & Co."),
  ("OPPENHEIMER", "Oppenheimer & Co."),
  ("Oppenheimer", "Oppenheimer & Co."),
  ("Oppenheimer & Co.", "Oppenheimer & Co."),
  ("Saul Ewing Arnstein & Lehr", "Saul Ewing"),
  ("Saul Ewing LLP", "Saul Ewing"),
  ("SAUL EWING", "Saul Ewing"),
  ("Saul Ewing", "Saul Ewing"),
  ("RBH Law", "Robinson Bradshaw"),
  ("Robinson Bradshaw & Hinson", "Robinson Bradshaw"),
  ("ROBINSON BRADSHAW", "Robinson Bradshaw"),
  ("Robinson Bradshaw", "Robinson Bradshaw"),
  ("Pearlman Miranda", "Pearlman & Miranda, LLC"),
  ("PEARLMAN & MIRANDA", "Pearlman & Miranda, LLC"),
  ("Pearlman and Miranda", "Pearlman & Miranda, LLC"),
  ("Pearlman & Miranda, LLC", "Pearlman & Miranda, LLC"),
  ("Pearlman & Miranda", "Pearlman & Miranda, LLC"),
  ("Nabors, Giblin & Nickerson, P.A.", "Nabors, Giblin & Nickerson, P.A."),
  ("NGN Law", "Nabors, Giblin & Nickerson, P.A."),
  ("Nabors, Giblin & Nickerson", "Nabors, Giblin & Nickerson, P.A."),
  ("NG&N", "Nabors, Giblin & Nickerson, P.A."),
  ("Katten Law", "Katten Muchin Rosenman"),
  ("KATTEN", "Katten Muchin Rosenman"),
  ("Katten", "Katten Muchin Rosenman"),
  ("Katten Muchin Rosenman", "Katten Muchin Rosenman"),
  ("HSB Law", "Hardwick Shiver"),
  ("Hardwick Shiver Brown", "Hardwick Shiver"),
  ("HARDWICK SHIVER", "Hardwick Shiver"),
  ("Hardwick Shiver", "Hardwick Shiver"),
  ("Brown Hutchinson LLP", "Brown Hutchinson"),
  ("BROWN HUTCHINSON", "Brown Hutchinson"),
  ("Brown Hutchinson", "Brown Hutchinson"),
  ("BMO Law", "Bryant Miller Olive"),
  ("Bryant Miller Olive", "Bryant Miller Olive"),
  (("Burke Mayborn O" ++ aposStr ++ "Mara"), "Bryant Miller Olive"),
  (("Burke, Mayborn, O" ++ aposStr ++ "Mara"), "Bryant Miller Olive"),
  ("Estrada Hinojosa Investment Bankers", "Estrada Hinojosa"),
  ("TRB Capital Markets, LLC", "Estrada Hinojosa"),
  ("TRB Capital Markets", "Estrada Hinojosa"),
  ("ESTRADA HINOJOSA", "Estrada Hinojosa"),
  ("Estrada Hinojosa & Company, Inc.", "Estrada Hinojosa"),
  ("Estrada Hinojosa & Company", "Estrada Hinojosa"),
  ("Estrada Hinojosa", "Estrada Hinojosa"),
  ("Samuel A. Ramirez & Company", "Ramirez & Co."),
  ("Ramirez", "Ramirez & Co."),
  ("RAMIREZ & CO., INC.", "Ramirez & Co."),
  ("Ramirez & Co., Inc.", "Ramirez & Co."),
  ("Ramirez & Co.", "Ramirez & Co."),
  ("SMBC Nikko Securities", "SMBC Nikko"),
  ("SMBC NIKKO", "SMBC Nikko"),
  ("SMBC Nikko Securities America", "SMBC Nikko"),
  ("SMBC Nikko", "SMBC Nikko"),
  ("Rice Financial Products Co.", "Rice Financial Products Company"),
  ("RICE FINANCIAL PRODUCTS COMPANY", "Rice Financial Products Company"),
  ("Rice Financial", "Rice Financial Products Company"),
  ("Rice Financial Products Company", "Rice Financial Products Company"),
  ("MBS", "Multi-Bank Securities"),
  ("MULTI-BANK SECURITIES", "Multi-Bank Securities"),
  ("Multi-Bank Securities, Inc.", "Multi-Bank Securities"),
  ("Multi-Bank Securities", "Multi-Bank Securities"),
  ("MELVIN SECURITIES", "Melvin Securities"),
  ("Melvin Securities, LLC", "Melvin Securities"),
  ("Melvin Securities", "Melvin Securities"),
  ("JANNEY MONTGOMERY SCOTT", "Janney Montgomery Scott"),
  ("Janney", "Janney Montgomery Scott"),
  ("Janney Montgomery Scott LLC", "Janney Montgomery Scott"),
  ("Janney Montgomery Scott", "Janney Montgomery Scott"),
  ("The Huntington Investment Company", "Huntington Capital Markets"),
  ("HUNTINGTON CAPITAL MARKETS", "Huntington Capital Markets"),
  ("Huntington", "Huntington Capital Markets"),
  ("Huntington Capital Markets", "Huntington Capital Markets"),
  ("FHN FINANCIAL", "FHN Financial Capital Markets"),
  ("First Horizon", "FHN Financial Capital Markets"),
  ("FHN Financial", "FHN Financial Capital Markets"),
  ("FHN Financial Capital Markets", "FHN Financial Capital Markets"),
  ("DAVENPORT & COMPANY", "Davenport & Company"),
  ("Davenport & Co.", "Davenport & Company"),
  ("Davenport & Company LLC", "Davenport & Company"),
  ("Davenport & Company", "Davenport & Company"),
  ("CABRERA CAPITAL MARKETS", "Cabrera Capital Markets"),
  ("Cabrera Capital Markets, LLC", "Cabrera Capital Markets"),
  ("Cabrera Capital Markets", "Cabrera Capital Markets"),
  ("BANCROFT CAPITAL", "Bancroft Capital"),
  ("Bancroft Capital, LLC", "Bancroft Capital"),
  ("Bancroft Capital", "Bancroft Capital"),
  ("AMERIVET SECURITIES", "AmeriVet Securities"),
  ("AmeriVet Securities, Inc.", "AmeriVet Securities"),
  ("AmeriVet Securities", "AmeriVet Securities"),
  ("ACADEMY SECURITIES", "Academy Securities"),
  ("Academy Securities, Inc.", "Academy Securities"),
  ("Academy Securities", "Academy Securities"),
  ("Northland Capital Markets", "Northland Securities"),
  ("NorthlandSecurities", "Northland Securities"),
  ("Northland", "Northland Securities"),
  ("NORTHLAND SECURITIES", "Northland Securities"),
  ("Northland Securities, Inc.", "Northland Securities"),
  ("Northland Securities", "Northland Securities"),
  ("U.S. Bank National Association", "U.S. Bank"),
  ("U.S. BANK", "U.S. Bank"),
  ("US BANK", "U.S. Bank"),
  ("U.S. Bancorp", "U.S. Bank"),
  ("USBank", "U.S. Bank"),
  ("US Bank", "U.S. Bank"),
  ("U.S. Bank", "U.S. Bank"),
  ("HJSIMS", "HJ Sims"),
  ("HJS", "HJ Sims"),
  ("Herbert J. Sims & Co., LLC", "HJ Sims"),
  ("Herbert J. Sims & Co.", "HJ Sims"),
  ("Herbert J. Sims", "HJ Sims"),
  ("H.J. Sims", "HJ Sims"),
  ("HJ Sims", "HJ Sims"),
  ("PNC Financial Services", "PNC Capital Markets"),
  ("PNC Bank", "PNC Capital Markets"),
  ("PNC CAPITAL MARKETS LLC", "PNC Capital Markets"),
  ("PNC CAPITAL MARKETS", "PNC Capital Markets"),
  ("PNC Capital Markets LLC", "PNC Capital Markets"),
  ("PNC Capital Markets", "PNC Capital Markets"),
  ("PNC", "PNC Capital Markets"),
  ("UBS Investment Bank", "UBS Financial Services"),
  ("UBS Securities", "UBS Financial Services"),
  ("UBS Financial Services Inc.", "UBS Financial Services"),
  ("UBS Financial Services", "UBS Financial Services"),
  ("UBS Financial", "UBS Financial Services"),
  ("Ubs", "UBS Financial Services"),
  ("UBS Group", "UBS Financial Services"),
  ("UBS", "UBS Financial Services"),
  ("STEPHENS INC", "Stephens Inc."),
  ("STEPHENS", "Stephens Inc."),
  ("Stephens Inc", "Stephens Inc."),
  ("Stephens Inc.", "Stephens Inc."),
  ("Stephens", "Stephens Inc."),
  ("SIEBERT WILLIAMS SHANK", "Siebert Williams Shank"),
  ("Siebert Williams", "Siebert Williams Shank"),
  ("SWS", "Siebert Williams Shank"),
  ("Siebert Williams Shank & Co., LLC", "Siebert Williams Shank"),
  ("Siebert Williams Shank & Co.", "Siebert Williams Shank"),
  ("Siebert Williams Shank", "Siebert Williams Shank"),
  ("BNY Mellon Capital Markets, LLC", "BNY Mellon Capital Markets"),
  ("BNY Mellon Capital Markets", "BNY Mellon Capital Markets"),
  ("Blaylock Van, LLC", "Blaylock Van"),
  ("Blaylock Van", "Blaylock Van"),
  ("American Veterans Group, PBC", "American Veterans Group"),
  ("American Veterans Group", "American Veterans Group"),
  ("SunTrust Robinson Humphrey", "Truist"),
  ("BB&T", "Truist"),
  ("Truist Securities", "Truist"),
  ("TRUIST", "Truist"),
  ("Truist", "Truist"),
  ("Raymond James & Associates", "Raymond James"),
  ("RAYMOND JAMES", "Raymond James"),
  ("Raymond James", "Raymond James"),
  ("Jefferies Group", "Jefferies"),
  ("Jefferies LLC", "Jefferies"),
  ("JEFFERIES", "Jefferies"),
  ("Jefferies", "Jefferies"),
  ("Wells Fargo & Company, N.A.", "Wells Fargo"),
  ("Wells Fargo Corporate & Investment Banking", "Wells Fargo"),
  ("Wells Fargo & Company", "Wells Fargo"),
  ("Wells Fargo Bank", "Wells Fargo"),
  ("Wells Fargo Securities", "Wells Fargo"),
  ("WELLS FARGO", "Wells Fargo"),
  ("Wells Fargo", "Wells Fargo"),
  ("TD Securities LLC", "TD Securities"),
  ("TD Securities Inc.", "TD Securities"),
  ("TD SECURITIES", "TD Securities"),
  ("TD Securities", "TD Securities"),
  ("RBC CM", "RBC Capital Markets"),
  ("Royal Bank of Canada", "RBC Capital Markets"),
  ("RBC", "RBC Capital Markets"),
  ("RBC Capital Markets", "RBC Capital Markets"),
  ("Citigroup Inc.", "Citigroup"),
  ("CITIGROUP", "Citigroup"),
  ("Citigroup", "Citigroup"),
  ("Morgan Stanley & Co. LLC", "Morgan Stanley"),
  ("Morgan Stanley & Co.", "Morgan Stanley"),
  ("MORGAN STANLEY", "Morgan Stanley"),
  ("Morgan Stanley", "Morgan Stanley"),
  ("pmorgan", "J.P. Morgan"),
  ("j. p. morgan", "J.P. Morgan"),
  ("j. p.morgan", "J.P. Morgan"),
  ("j .p. morgan", "J.P. Morgan"),
  ("j. p. morgan", "J.P. Morgan"),
  ("j. p. m o r g a n", "J.P. Morgan"),
  ("jpmorgan", "J.P. Morgan"),
  ("jp morgan", "J.P. Morgan"),
  ("j.p.morgan", "J.P. Morgan"),
  ("j.p. morgan", "J.P. Morgan"),
  ("j.p. morgan", "J.P. Morgan"),
  ("j.p morgan", "J.P. Morgan"),
  ("j.p. morgan", "J.P. Morgan"),
  ("J.P. MORGAN", "J.P. Morgan"),
  ("JPMorgan Chase & Co.", "J.P. Morgan"),
  ("JPMorgan Chase & Co.", "J.P. Morgan"),
  ("JPMORGAN", "J.P. Morgan"),
  ("JPMorgan Chase", "J.P. Morgan"),
  ("JP Morgan", "J.P. Morgan"),
  ("J.P. Morgan", "J.P. Morgan"),
  ("JPMorgan", "J.P. Morgan"),
  ("GS", "Goldman Sachs & Co. LLC"),
  ("Goldman Sachs & Co. LLC", "Goldman Sachs & Co. LLC"),
  ("Goldman Sachs & Co. LLC", "Goldman Sachs & Co. LLC"),
  ("Goldman Sachs & Co.", "Goldman Sachs & Co. LLC"),
  ("Goldman, Sachs & Co.", "Goldman Sachs & Co. LLC"),
  ("GOLDMAN SACHS", "Goldman Sachs & Co. LLC"),
  ("Goldman Sachs", "Goldman Sachs & Co. LLC"),
  ("5/3 Securities", "Fifth Third Securities"),
  ("FIFTH THIRD", "Fifth Third Securities"),
  ("Fifth Third", "Fifth Third Securities"),
  ("Fifth Third Securities, Inc. (MA)", "Fifth Third Securities"),
  ("Fifth Third Securities, Inc.", "Fifth Third Securities"),
  ("Fifth Third Securities", "Fifth Third Securities"),
  ("B.C. Ziegler and Company", "Ziegler"),
  ("B.C. Ziegler", "Ziegler"),
  ("ZIEGLER", "Ziegler"),
  ("Ziegler", "Ziegler"),
  ("LOOP CAPITAL", "Loop Capital Markets"),
  ("Loop Capital", "Loop Capital Markets"),
  ("Loop Capital Markets", "Loop Capital Markets"),
  ("PIPER SANDLER & CO.", "Piper Sandler"),
  ("Piper Sandler & Co., Inc.", "Piper Sandler"),
  ("PIPER SANDLER", "Piper Sandler"),
  ("Piper Sandler & Co.", "Piper Sandler"),
  ("Piper Sandler", "Piper Sandler"),
  ("COLLIERS SECURITIES LLC", "Colliers Securities"),
  ("COLLIERS", "Colliers Securities"),
  ("Colliers Securities LLC", "Colliers Securities"),
  ("Colliers Securities", "Colliers Securities"),
  ("Cain Brothers, a division of KeyBanc Capital Markets", "KeyBanc Capital Markets"),
  ("Cain Brothers", "KeyBanc Capital Markets"),
  ("Key Capital Markets", "KeyBanc Capital Markets"),
  ("KeyBanc", "KeyBanc Capital Markets"),
  ("KeyBanc Capital Markets Inc.", "KeyBanc Capital Markets"),
  ("KeyBanc Capital Markets", "KeyBanc Capital Markets"),
  ("BofA", "BofA Securities"),
  ("Bank of America Securities, Inc.", "BofA Securities"),
  ("Bank of America Securities", "BofA Securities"),
  ("BofA SECURITIES", "BofA Securities"),
  ("BOFA SECURITIES", "BofA Securities"),
  ("BofA Merrill Lynch", "BofA Securities"),
  ("BofA Securities, Inc.", "BofA Securities"),
  ("BofA Securities", "BofA Securities"),
  ("Bank of America", "BofA Securities"),
  ("Barclays Capital Inc.", "Barclays Capital"),
  ("BARCLAYS CAPITAL", "Barclays Capital"),
  ("Barclays Capital", "Barclays Capital"),
  ("BARCLAYS", "Barclays Capital"),
  ("Barclays", "Barclays Capital")]

/-- The value of the seed website index, written out: newest binding first. -/
def webIdxRaw : List (String × String) := [
  ("thompsonhine.com", "Thompson Hine"),
  ("sycr.com", "Stradling Yocca Carlson & Rauth"),
  ("shermanhoward.com", "Sherman & Howard"),
  ("sgrlaw.com", "Smith Gambrell & Russell"),
  ("savagelawpartners.com", "Savage Law Partners"),
  ("ropesgray.com", "Ropes & Gray"),
  ("qtllp.com", "Quilling Selander"),
  ("pullcom.com", "Pullman & Comley"),
  ("popeflynn.com", "Pope Flynn"),
  ("polsinelli.com", "Polsinelli"),
  ("parkerpoe.com", "Parker Poe"),
  ("pacificalawgroup.com", "Pacifica Law Group"),
  ("nixonpeabody.com", "Nixon Peabody"),
  ("modrall.com", "Modrall Sperling"),
  ("millercanfield.com", "Miller Canfield"),
  ("maynardcooper.com", "Maynard Cooper & Gale"),
  ("lockelord.com", "Locke Lord"),
  ("kslaw.com", "King & Spalding"),
  ("klgates.com", "K&L Gates"),
  ("kellyhart.com", "Kelly Hart"),
  ("jw.com", "Jackson Walker"),
  ("joneswalker.com", "Jones Walker"),
  ("icemiller.com", "Ice Miller"),
  ("hcmp.com", "Hillis Clark Martin & Peterson"),
  ("hallrender.com", "Hall Render"),
  ("gtlaw.com", "Greenberg Traurig"),
  ("greensfelder.com", "Greensfelder"),
  ("gray-robinson.com", "GrayRobinson"),
  ("gpwlawfirm.com", "Gordon Rees Scully Mansukhani"),
  ("fryberger.com", "Fryberger Buchanan"),
  ("frostbrowntodd.com", "Frost Brown Todd"),
  ("foster.com", "Foster Garvey"),
  ("eckertseamans.com", "Eckert Seamans"),
  ("dseatonaa.com", "D. Seaton & Associates"),
  ("dilworthlaw.com", "Dilworth Paxson"),
  ("cozen.com", ("Cozen O" ++ aposStr ++ "Connor")),
  ("butlersnow.com", "Butler Snow"),
  ("bsk.com", "Bond Schoeneck & King"),
  ("bipc.com", "Buchanan Ingersoll & Rooney"),
  ("bbklaw.com", "Best Best & Krieger"),
  ("barclaydamon.com", "Barclay Damon"),
  ("turnerlawpc.com", "Turner Law"),
  ("llorenteheckler.com", "Llorente & Heckler"),
  ("fridayfirm.com", "Friday Eldredge & Clark"),
  ("calfee.com", "Calfee Halter & Griswold"),
  ("hinckleyallen.com", "Hinckley Allen"),
  ("hinckleyallen.com", "Hinckley Allen"),
  ("holleypearsonfarrer.com", "Holley Pearson Farrer"),
  ("taftlaw.com", "Taft Stettinius & Hollister"),
  ("squirepattonboggs.com", "Squire Patton Boggs"),
  ("quarles.com", "Quarles & Brady"),
  ("orrick.com", "Orrick Herrington"),
  ("nortonrosefulbright.com", "Norton Rose Fulbright"),
  ("mintz.com", "Mintz Levin"),
  ("mcguirewoods.com", "McGuireWoods"),
  ("kutakrock.com", "Kutak Rock"),
  ("hawkins.com", "Hawkins Delafield & Wood"),
  ("harrisbeach.com", "Harris Beach"),
  ("gilmorebell.com", "Gilmore & Bell"),
  ("foxrothschild.com", "Fox Rothschild"),
  ("foley.com", "Foley & Lardner"),
  ("dorsey.com", "Dorsey & Whitney"),
  ("dinsmore.com", "Dinsmore & Shohl"),
  ("dickinson-wright.com", "Dickinson Wright"),
  ("chapman.com", "Chapman and Cutler"),
  ("brickergraydon.com", "Bricker & Eckler"),
  ("bracewelllaw.com", "Bracewell"),
  ("btlaw.com", "Barnes & Thornburg"),
  ("bassberry.com", "Bass Berry & Sims"),
  ("ballardspahr.com", "Ballard Spahr"),
  ("balch.com", "Balch & Bingham"),
  ("murraybarneslaw.com", "Murray Barnes Finister"),
  ("cantuhardenmontoya.com", "Cantu Harden Montoya"),
  ("yubagroup.com", "Yuba Group"),
  ("stifel.com", "Stifel"),
  ("rwbaird.com", "Robert W. Baird"),
  ("prager.com", "Prager & Co."),
  ("pragadvisors.com", "Public Resources Advisory Group"),
  ("mara-cap.com", "Marathon Capital"),
  ("majorsgrp.com", "The Majors Group"),
  ("lamontfin.com", "Lamont Financial Services"),
  ("huronconsultinggroup.com", "Huron Consulting Group"),
  ("hamlinadvisors.com", "Hamlin Capital Advisors"),
  ("h2c.com", "Hammond Hanlon Camp"),
  ("govcapsecurities.com", "Government Capital Securities"),
  ("firsttryon.com", "First Tryon Advisors"),
  ("evercrestadvisors.com", "Evercrest Capital"),
  ("brownadvisory.com", "Brown Advisory"),
  ("argentfinancial.com", "Argent Financial Group"),
  ("acaciafin.com", "Acacia Financial Group"),
  ("aafaf.pr.gov", "AAFAF"),
  ("swapfinancial.com", "Swap Financial Group"),
  ("ponderco.com", "Ponder & Co."),
  ("meliocompany.com", "Melio & Company"),
  ("columbiacapital.com", "Columbia Capital"),
  ("firstriver.com", "First River Advisory"),
  ("pfm.com", "PFM Financial Advisors"),
  ("kaufmanhall.com", "Kaufman Hall"),
  ("hilltopsecurities.com", "Hilltop Securities"),
  ("echo-fp.com", "Echo Financial Products"),
  ("hl.com", "Houlihan Lokey"),
  ("sdao.com", "SDAO Advisory Services"),
  ("umb.com", "UMB Financial"),
  ("frazerlanier.com", "The Frazer Lanier Company"),
  ("brv-llc.com", "Blue River Analytics"),
  ("mesirowfinancial.com", "Mesirow Financial"),
  ("mesirow.com", "Mesirow Financial"),
  ("oppenheimer.com", "Oppenheimer & Co."),
  ("opco.com", "Oppenheimer & Co."),
  ("saul.com", "Saul Ewing"),
  ("robinsonbradshaw.com", "Robinson Bradshaw"),
  ("rbh.com", "Robinson Bradshaw"),
  ("pearlmanmiranda.com", "Pearlman & Miranda, LLC"),
  ("ngnlaw.com", "Nabors, Giblin & Nickerson, P.A."),
  ("kattenlaw.com", "Katten Muchin Rosenman"),
  ("hsblawfirm.com", "Hardwick Shiver"),
  ("brownhutchinson.com", "Brown Hutchinson"),
  ("bmolaw.com", "Bryant Miller Olive"),
  ("estradahinojosa.com", "Estrada Hinojosa"),
  ("ehmuni.com", "Estrada Hinojosa"),
  ("ramirezco.com", "Ramirez & Co."),
  ("smbcnikko-si.com", "SMBC Nikko"),
  ("ricefin.com", "Rice Financial Products Company"),
  ("mbssecurities.com", "Multi-Bank Securities"),
  ("melvinsecurities.com", "Melvin Securities"),
  ("janney.com", "Janney Montgomery Scott"),
  ("huntington.com", "Huntington Capital Markets"),
  ("fhnfinancial.com", "FHN Financial Capital Markets"),
  ("investdavenport.com", "Davenport & Company"),
  ("davenportllc.com", "Davenport & Company"),
  ("cabreracapital.com", "Cabrera Capital Markets"),
  ("bancroft4vets.com", "Bancroft Capital"),
  ("amerivetsecurities.com", "AmeriVet Securities"),
  ("academysecurities.com", "Academy Securities"),
  ("northlandcapitalmarkets.com", "Northland Securities"),
  ("northlandsecurities.com", "Northland Securities"),
  ("usbank.com", "U.S. Bank"),
  ("usbank.com", "U.S. Bank"),
  ("hjsims.com", "HJ Sims"),
  ("pnccapitalmarkets.com", "PNC Capital Markets"),
  ("pnc.com", "PNC Capital Markets"),
  ("ubs.com", "UBS Financial Services"),
  ("ubs.com", "UBS Financial Services"),
  ("stephens.com", "Stephens Inc."),
  ("siebertwilliams.com", "Siebert Williams Shank"),
  ("bnymellon.com", "BNY Mellon Capital Markets"),
  ("blaylockvan.com", "Blaylock Van"),
  ("americanveteransgroup.com", "American Veterans Group"),
  ("truist.com", "Truist"),
  ("raymondjames.com", "Raymond James"),
  ("jefferies.com", "Jefferies"),
  ("wellsfargo.com", "Wells Fargo"),
  ("td.com", "TD Securities"),
  ("tdsecurities.com", "TD Securities"),
  ("rbc.com", "RBC Capital Markets"),
  ("rbccm.com", "RBC Capital Markets"),
  ("citigroup.com", "Citigroup"),
  ("morganstanley.com", "Morgan Stanley"),
  ("jpmorganchase.com", "J.P. Morgan"),
  ("jpmorgan.com", "J.P. Morgan"),
  ("gs.com", "Goldman Sachs & Co. LLC"),
  ("goldmansachs.com", "Goldman Sachs & Co. LLC"),
  ("53.com", "Fifth Third Securities"),
  ("ziegler.com", "Ziegler"),
  ("loopcapital.com", "Loop Capital Markets"),
  ("pipersandler.com", "Piper Sandler"),
  ("colliers.com", "Colliers Securities"),
  ("cainbrothers.com", "KeyBanc Capital Markets"),
  ("key.com", "KeyBanc Capital Markets"),
  ("bankofamerica.com", "BofA Securities"),
  ("bofaml.com", "BofA Securities"),
  ("barclays.co.uk", "Barclays Capital"),
  ("barclays.com", "Barclays Capital")]

/-- The seed name index as a literal association list. -/
def nameIdxLit : Dict Str := nameIdxRaw.map (fun p => (p.1.data, p.2.data))

/-- The seed website index as a literal association list. -/
def webIdxLit : Dict Str := webIdxRaw.map (fun p => (p.1.data, p.2.data))

/-- Per-website registration check: the cleaned domain is either falsy
(never registered) or a good domain that the seed website index maps to the
entry's canonical name. -/
def webEntryOk (cn w : Str) : Bool :=
  match clean_website w with
  | some d => d == [] ||
      (decide (GoodDomain d) && (dictGet webIdxLit d == some cn))
  | none => true

/-- Chunk-wise check of the seed websites against `webIdxLit`. -/
def webChunkOk (es : List (Str × List Str × List Str)) : Bool :=
  es.all (fun e => e.2.2.all (fun w => webEntryOk e.1 w))

/-- Chunk-wise check of the seed name variations against `nameIdxLit`: each
is a good variant that the index maps to its entry's canonical name. -/
def nameChunkOk (es : List (Str × List Str × List Str)) : Bool :=
  es.all (fun e => e.2.1.all (fun v =>
    decide (GoodVariant v) && (dictGet nameIdxLit v == some e.1)))

/-- The first seed entry, used by witnesses. -/
def seedHead : Str × List Str × List Str := seedEntries.headD ([], [], [])

/-! ## General lemmas -/

theorem nodup_all_eq_singleton {α : Type} {m : List α} {a : α}
    (hn : m.Nodup) (ha : a ∈ m) (hall : ∀ x ∈ m, x = a) : m = [a] := by
  cases m with
  | nil => cases ha
  | cons b t =>
    have hb : b = a := hall b (by simp)
    subst hb
    cases t with
    | nil => rfl
    | cons c u =>
      have hc : c = b := hall c (by simp)
      subst hc
      simp at hn

theorem dedup_length_one_iff {α : Type} [DecidableEq α] {l : List α} (hl : l ≠ []) :
    l.dedup.length = 1 ↔ ∀ x ∈ l, ∀ y ∈ l, x = y := by
  constructor
  · intro h x hx y hy
    obtain ⟨b, hb⟩ := List.length_eq_one.mp h
    have hxb : x = b := by
      have := List.mem_dedup.mpr hx
      rw [hb] at this
      simpa using this
    have hyb : y = b := by
      have := List.mem_dedup.mpr hy
      rw [hb] at this
      simpa using this
    rw [hxb, hyb]
  · intro hall
    obtain ⟨a, t, rfl⟩ := List.exists_cons_of_ne_nil hl
    have : (a :: t).dedup = [a] := by
      apply nodup_all_eq_singleton (List.nodup_dedup _)
      · exact List.mem_dedup.mpr (by simp)
      · intro x hx
        exact hall x (List.mem_dedup.mp hx) a (by simp)
    rw [this]
    rfl

theorem headD_of_ne_nil {α : Type} {l : List α} {d : α} (h : l ≠ []) :
    l.head? = some (l.headD d) := by
  cases l with
  | nil => exact absurd rfl h
  | cons a t => rfl

/-! ## C1 and C9: fee reconciliation -/

/-- C1: whenever fee extraction returns a result (it matched at least one
candidate), the collected candidate list is non-empty; if all candidates are
numerically identical then `total` is that single value (the list head, not
the sum) and `are_amounts_identical` is true; if they are not all identical
then `total` is the sum of all candidates, `are_amounts_identical` is false
and `is_dupe_review_completed` is false. -/
theorem fee_reconciliation_c1 (pages : List Str) (r : FeeExtractionResult)
    (h : extract_underwriting_discount_from_pdf pages = some r) :
    r.scrape_breakdown.amounts ≠ [] ∧
    ((∀ x ∈ r.scrape_breakdown.amounts, ∀ y ∈ r.scrape_breakdown.amounts, x = y) →
      r.scrape_breakdown.amounts.head? = some r.total ∧
      r.scrape_breakdown.are_amounts_identical = true) ∧
    (¬(∀ x ∈ r.scrape_breakdown.amounts, ∀ y ∈ r.scrape_breakdown.amounts, x = y) →
      r.total = r.scrape_breakdown.amounts.sum ∧
      r.scrape_breakdown.are_amounts_identical = false ∧
      r.scrape_breakdown.is_dupe_review_completed = false) := by
  unfold extract_underwriting_discount_from_pdf at h
  by_cases hE : (pages.flatMap pageAmounts).isEmpty
  · simp [hE] at h
  · simp only [hE, if_neg, Bool.false_eq_true, not_false_iff, if_false,
      Option.some.injEq] at h
    subst h
    have hne : pages.flatMap pageAmounts ≠ [] := by
      simpa [List.isEmpty_iff] using hE
    refine ⟨hne, ?_, ?_⟩
    · intro hall
      have hdedup : (pages.flatMap pageAmounts).dedup.length = 1 :=
        (dedup_length_one_iff hne).mpr (fun x hx y hy => hall x hx y hy)
      have hbeq : ((pages.flatMap pageAmounts).dedup.length == 1) = true := by
        simpa using hdedup
      constructor
      · show (pages.flatMap pageAmounts).head? =
          some (if ((pages.flatMap pageAmounts).dedup.length == 1) = true
            then (pages.flatMap pageAmounts).headD 0 else (pages.flatMap pageAmounts).sum)
        rw [if_pos hbeq]
        exact headD_of_ne_nil hne
      · exact hbeq
    · intro hnall
      have hdedup : ¬((pages.flatMap pageAmounts).dedup.length = 1) := by
        intro hc
        exact hnall ((dedup_length_one_iff hne).mp hc)
      have hbeq : ((pages.flatMap pageAmounts).dedup.length == 1) = false := by
        simpa using hdedup
      have hlen : 1 < (pages.flatMap pageAmounts).length := by
        rcases List.exists_cons_of_ne_nil hne with ⟨a, t, ht⟩
        rcases t with _ | ⟨b, u⟩
        · exfalso
          apply hnall
          intro x hx y hy
          rw [ht] at hx hy
          simp at hx hy
          rw [hx, hy]
        · rw [ht]
          simp only [List.length_cons]
          omega
      refine ⟨?_, hbeq, ?_⟩
      · show (if ((pages.flatMap pageAmounts).dedup.length == 1) = true
            then (pages.flatMap pageAmounts).headD 0 else (pages.flatMap pageAmounts).sum) =
          (pages.flatMap pageAmounts).sum
        rw [if_neg (by simp [hbeq])]
      · show (!decide (1 < (pages.flatMap pageAmounts).length)) = false
        rw [decide_eq_true hlen]
        rfl

theorem fee_reconciliation_c1_witness :
    extract_underwriting_discount_from_pdf c1Pages = some c1Res ∧
    (c1Res.scrape_breakdown.amounts ≠ [] ∧
    ((∀ x ∈ c1Res.scrape_breakdown.amounts, ∀ y ∈ c1Res.scrape_breakdown.amounts, x = y) →
      c1Res.scrape_breakdown.amounts.head? = some c1Res.total ∧
      c1Res.scrape_breakdown.are_amounts_identical = true) ∧
    (¬(∀ x ∈ c1Res.scrape_breakdown.amounts, ∀ y ∈ c1Res.scrape_breakdown.amounts, x = y) →
      c1Res.total = c1Res.scrape_breakdown.amounts.sum ∧
      c1Res.scrape_breakdown.are_amounts_identical = false ∧
      c1Res.scrape_breakdown.is_dupe_review_completed = false)) :=
  ⟨by decide, fee_reconciliation_c1 c1Pages c1Res (by decide)⟩

/-- C9: whenever fee extraction returns a result, `is_dupe_review_completed`
is true exactly when a single candidate was collected across all pages and
patterns; and with two or more candidates that are all identical, `total` is
still the single value and `are_amounts_identical` is true, yet
`is_dupe_review_completed` is false. -/
theorem fee_review_flag_c9 (pages : List Str) (r : FeeExtractionResult)
    (h : extract_underwriting_discount_from_pdf pages = some r) :
    (r.scrape_breakdown.is_dupe_review_completed = true ↔
      r.scrape_breakdown.amounts.length = 1) ∧
    (2 ≤ r.scrape_breakdown.amounts.length →
      (∀ x ∈ r.scrape_breakdown.amounts, ∀ y ∈ r.scrape_breakdown.amounts, x = y) →
      r.scrape_breakdown.amounts.head? = some r.total ∧
      r.scrape_breakdown.are_amounts_identical = true ∧
      r.scrape_breakdown.is_dupe_review_completed = false) := by
  unfold extract_underwriting_discount_from_pdf at h
  by_cases hE : (pages.flatMap pageAmounts).isEmpty
  · simp [hE] at h
  · simp only [hE, if_neg, Bool.false_eq_true, not_false_iff, if_false,
      Option.some.injEq] at h
    subst h
    have hne : pages.flatMap pageAmounts ≠ [] := by
      simpa [List.isEmpty_iff] using hE
    constructor
    · show (!decide (1 < (pages.flatMap pageAmounts).length)) = true ↔
        (pages.flatMap pageAmounts).length = 1
      have hpos : 1 ≤ (pages.flatMap pageAmounts).length := by
        have hz : (pages.flatMap pageAmounts).length ≠ 0 :=
          fun h0 => hne (List.length_eq_zero.mp h0)
        omega
      constructor
      · intro hb
        have hb2 : decide (1 < (pages.flatMap pageAmounts).length) = false := by
          cases hdec : decide (1 < (pages.flatMap pageAmounts).length) with
          | false => rfl
          | true => rw [hdec] at hb; cases hb
        have hnl : ¬(1 < (pages.flatMap pageAmounts).length) := of_decide_eq_false hb2
        omega
      · intro hb
        rw [hb]
        rfl
    · intro hlen hall
      have hdedup : (pages.flatMap pageAmounts).dedup.length = 1 :=
        (dedup_length_one_iff hne).mpr (fun x hx y hy => hall x hx y hy)
      have hbeq : ((pages.flatMap pageAmounts).dedup.length == 1) = true := by
        simpa using hdedup
      refine ⟨?_, hbeq, ?_⟩
      · show (pages.flatMap pageAmounts).head? =
          some (if ((pages.flatMap pageAmounts).dedup.length == 1) = true
            then (pages.flatMap pageAmounts).headD 0 else (pages.flatMap pageAmounts).sum)
        rw [if_pos hbeq]
        exact headD_of_ne_nil hne
      · show (!decide (1 < (pages.flatMap pageAmounts).length)) = false
        have h2 : 1 < (pages.flatMap pageAmounts).length := hlen
        rw [decide_eq_true h2]
        rfl

theorem fee_review_flag_c9_witness :
    extract_underwriting_discount_from_pdf c9Pages = some c9Res ∧
    ((c9Res.scrape_breakdown.is_dupe_review_completed = true ↔
      c9Res.scrape_breakdown.amounts.length = 1) ∧
    (2 ≤ c9Res.scrape_breakdown.amounts.length →
      (∀ x ∈ c9Res.scrape_breakdown.amounts, ∀ y ∈ c9Res.scrape_breakdown.amounts, x = y) →
      c9Res.scrape_breakdown.amounts.head? = some c9Res.total ∧
      c9Res.scrape_breakdown.are_amounts_identical = true ∧
      c9Res.scrape_breakdown.is_dupe_review_completed = false)) :=
  ⟨by decide, fee_review_flag_c9 c9Pages c9Res (by decide)⟩
/-! ## C4: URL-shaped input never hits the name index -/

/-- C4: on input starting with `http://`, `https://` or `www.`, name
resolution coincides with website resolution — whatever the contents of the
name-variant index (replacing it changes nothing) — so a URL-shaped string is
never resolved through the name index, even if it literally equals a
registered name variant. -/
theorem url_input_never_name_index_c4 (S : CompanyStandardizer) (nIdx : Dict Str)
    (raw : Str) (h : urlLike raw = true) :
    get_canonical_name S raw = get_canonical_name_from_website S raw ∧
    get_canonical_name ⟨S.companies, nIdx, S.website_to_canonical⟩ raw =
      get_canonical_name_from_website S raw := by
  have hraw : raw ≠ [] := by
    intro hr
    rw [hr] at h
    simp [urlLike, httpS, httpsS, wwwS, List.isPrefixOf] at h
  constructor
  · rw [get_canonical_name, if_neg hraw, if_pos h]
  · rw [get_canonical_name, if_neg hraw, if_pos h]
    rfl

theorem url_input_never_name_index_c4_witness :
    urlLike c4Raw = true ∧
    (get_canonical_name seedStandardizer c4Raw =
      get_canonical_name_from_website seedStandardizer c4Raw ∧
    get_canonical_name ⟨seedStandardizer.companies, [], seedStandardizer.website_to_canonical⟩
        c4Raw =
      get_canonical_name_from_website seedStandardizer c4Raw) :=
  ⟨by decide, url_input_never_name_index_c4 seedStandardizer [] c4Raw (by decide)⟩

/-! ## C5: missing or empty lead managers fails closed -/

/-- C5: when the `lead_managers` slot is absent or empty, standardization
returns the empty result, whatever the other slots contain. -/
theorem missing_lead_managers_c5 (data : RawDealData) (S : CompanyStandardizer)
    (h : data.lead_managers = none ∨ data.lead_managers = some []) :
    (standardize_scraped_data data S).1 = none := by
  rcases h with h | h <;> rw [standardize_scraped_data, h]

theorem missing_lead_managers_c5_witness :
    (c5Data.lead_managers = none ∨ c5Data.lead_managers = some []) ∧
    (standardize_scraped_data c5Data seedStandardizer).1 = none :=
  ⟨Or.inr rfl, missing_lead_managers_c5 c5Data seedStandardizer (Or.inr rfl)⟩

/-! ## C7: absent override key leaves the record untouched -/

/-- C7: when the record's source URL is not a key of the override table, the
override step returns the record unchanged (the very same dictionary) and an
empty change log. -/
theorem override_absent_key_c7 (deal_data : Dict PyVal)
    (h : dictGet overrides (urlOf deal_data) = none) :
    applyOverrides deal_data = (deal_data, []) := by
  rw [applyOverrides, h]

theorem override_absent_key_c7_witness :
    dictGet overrides (urlOf c7Data) = none ∧
    applyOverrides c7Data = (c7Data, []) :=
  ⟨by decide, override_absent_key_c7 c7Data (by decide)⟩
/-! ## C8: re-registration replaces the entity and rebuilds its index entries -/

theorem dictGet_insert_self {α : Type} (d : Dict α) (k : Str) (v : α) :
    dictGet (dictInsert d k v) k = some v := by
  simp [dictGet, dictInsert, List.find?]

theorem dictGet_insert_ne {α : Type} (d : Dict α) (k k1 : Str) (v : α) (h : k ≠ k1) :
    dictGet (dictInsert d k1 v) k = dictGet d k := by
  have hb : (k1 == k) = false := beq_eq_false_iff_ne.mpr (fun he => h he.symm)
  simp [dictGet, dictInsert, List.find?, hb]

theorem dictGet_foldl_insert (vs : List Str) (D : Dict Str) (cn key : Str)
    (h : key ∈ vs ∨ dictGet D key = some cn) :
    dictGet (vs.foldl (fun d x => dictInsert d x cn) D) key = some cn := by
  induction vs generalizing D with
  | nil =>
    rcases h with h | h
    · cases h
    · exact h
  | cons x rest ih =>
    simp only [List.foldl_cons]
    apply ih
    by_cases hkx : key = x
    · subst hkx
      right
      exact dictGet_insert_self D key cn
    · rcases h with h | h
      · rcases List.mem_cons.mp h with h | h
        · exact absurd h hkx
        · left; exact h
      · right
        rw [dictGet_insert_ne D key x cn hkx]
        exact h

theorem mem_cleanWebsites_iff (W : List Str) (x : Str) :
    x ∈ cleanWebsites W ↔ ∃ u ∈ W, clean_website u = some x ∧ x ≠ [] := by
  rw [cleanWebsites, List.mem_filterMap]
  constructor
  · rintro ⟨u, hu, hf⟩
    refine ⟨u, hu, ?_⟩
    rcases hc : clean_website u with _ | d
    · rw [hc] at hf
      change (none : Option Str) = some x at hf
      cases hf
    · rw [hc] at hf
      change (if d = [] then none else some d) = some x at hf
      by_cases hd : d = []
      · rw [if_pos hd] at hf
        cases hf
      · rw [if_neg hd] at hf
        obtain rfl := Option.some.inj hf
        exact ⟨rfl, hd⟩
  · rintro ⟨u, hu, hc, hx⟩
    refine ⟨u, hu, ?_⟩
    rw [hc]
    change (if x = [] then none else some x) = some x
    rw [if_neg hx]

/-- C8: registering the same canonical name twice replaces that entity's
record — afterwards the entity table holds exactly the second call's trimmed
variations and normalized (non-falsy) domains — and every variation of the
second call, and every normalized domain of its websites, resolves to the
canonical name in the lookup indexes. -/
theorem add_company_twice_c8 (S : CompanyStandardizer) (cn : Str)
    (V1 W1 V2 W2 : List Str) (x v w dmn : Str)
    (hv : v ∈ V2) (hw : w ∈ W2) (hcw : clean_website w = some dmn) (hdmn : dmn ≠ []) :
    dictGet (add_company (add_company S cn V1 W1) cn V2 W2).companies cn =
      some ⟨cn, cleanVariations V2, cleanWebsites W2⟩ ∧
    (x ∈ cleanVariations V2 ↔ ∃ u ∈ V2, pyStrip u = x) ∧
    (x ∈ cleanWebsites W2 ↔ ∃ u ∈ W2, clean_website u = some x ∧ x ≠ []) ∧
    dictGet (add_company (add_company S cn V1 W1) cn V2 W2).name_to_canonical
      (pyStrip v) = some cn ∧
    dictGet (add_company (add_company S cn V1 W1) cn V2 W2).website_to_canonical
      dmn = some cn := by
  refine ⟨?_, ?_, ?_, ?_, ?_⟩
  · exact dictGet_insert_self _ cn _
  · simp [cleanVariations, List.mem_map]
  · exact mem_cleanWebsites_iff W2 x
  · apply dictGet_foldl_insert
    left
    exact List.mem_map_of_mem pyStrip hv
  · apply dictGet_foldl_insert
    left
    exact (mem_cleanWebsites_iff W2 dmn).mpr ⟨w, hw, hcw, hdmn⟩

theorem add_company_twice_c8_witness :
    " Acme ".data ∈ c8V2 ∧ "https://www.Acme.com/about".data ∈ c8W2 ∧
    clean_website "https://www.Acme.com/about".data = some "acme.com".data ∧
    "acme.com".data ≠ [] ∧
    (dictGet (add_company (add_company ⟨[], [], []⟩ "Acme Corp".data ["Old Acme".data]
        ["old-acme.com".data]) "Acme Corp".data c8V2 c8W2).companies "Acme Corp".data =
      some ⟨"Acme Corp".data, cleanVariations c8V2, cleanWebsites c8W2⟩ ∧
    ("Acme".data ∈ cleanVariations c8V2 ↔ ∃ u ∈ c8V2, pyStrip u = "Acme".data) ∧
    ("Acme".data ∈ cleanWebsites c8W2 ↔
      ∃ u ∈ c8W2, clean_website u = some "Acme".data ∧ "Acme".data ≠ []) ∧
    dictGet (add_company (add_company ⟨[], [], []⟩ "Acme Corp".data ["Old Acme".data]
        ["old-acme.com".data]) "Acme Corp".data c8V2 c8W2).name_to_canonical
      (pyStrip " Acme ".data) = some "Acme Corp".data ∧
    dictGet (add_company (add_company ⟨[], [], []⟩ "Acme Corp".data ["Old Acme".data]
        ["old-acme.com".data]) "Acme Corp".data c8V2 c8W2).website_to_canonical
      "acme.com".data = some "Acme Corp".data) :=
  ⟨by decide, by decide, by decide, by decide,
    add_company_twice_c8 ⟨[], [], []⟩ "Acme Corp".data ["Old Acme".data] ["old-acme.com".data]
      c8V2 c8W2 "Acme".data " Acme ".data "https://www.Acme.com/about".data "acme.com".data
      (by decide) (by decide) (by decide) (by decide)⟩
/-! ## C6 and C10: slot standardization -/

theorem standardizeItems_fst (S : CompanyStandardizer) (mw : Str → Str) (items : List Str) :
    (standardizeItems S mw items).1 =
      (items.filter (fun i => !(i == []))).map
        (fun it => (get_canonical_name S it).getD it) := by
  induction items with
  | nil => rfl
  | cons item rest ih =>
    by_cases hi : item = []
    · simp [standardizeItems, hi, ih, List.filter_cons]
    · rcases hg : get_canonical_name S item with _ | c
      · simp [standardizeItems, hi, hg, ih, List.filter_cons]
      · simp [standardizeItems, hi, hg, ih, List.filter_cons]

theorem standardizeItems_warn_mem (S : CompanyStandardizer) (mw : Str → Str)
    (items : List Str) (item : Str) (hmem : item ∈ items) (hne : item ≠ [])
    (hun : get_canonical_name S item = none) :
    mw item ∈ (standardizeItems S mw items).2 := by
  induction items with
  | nil => cases hmem
  | cons a rest ih =>
    rcases List.mem_cons.mp hmem with rfl | hmem2
    · simp [standardizeItems, hne, hun]
    · by_cases ha : a = []
      · simpa [standardizeItems, ha] using ih hmem2
      · rcases hg : get_canonical_name S a with _ | c
        · simp only [standardizeItems, if_neg ha, hg]
          exact List.mem_cons_of_mem _ (ih hmem2)
        · simp only [standardizeItems, if_neg ha, hg]
          exact ih hmem2

theorem standardizeItems_warn_shape (S : CompanyStandardizer) (mw : Str → Str)
    (items : List Str) (w : Str) (hw : w ∈ (standardizeItems S mw items).2) :
    ∃ item ∈ items, item ≠ [] ∧ get_canonical_name S item = none ∧ w = mw item := by
  induction items with
  | nil => cases hw
  | cons a rest ih =>
    by_cases ha : a = []
    · rw [standardizeItems, if_pos ha] at hw
      obtain ⟨item, h1, h2, h3, h4⟩ := ih hw
      exact ⟨item, List.mem_cons_of_mem _ h1, h2, h3, h4⟩
    · rcases hg : get_canonical_name S a with _ | c
      · rw [standardizeItems, if_neg ha, hg] at hw
        rcases List.mem_cons.mp hw with rfl | hw2
        · exact ⟨a, List.mem_cons_self _ _, ha, hg, rfl⟩
        · obtain ⟨item, h1, h2, h3, h4⟩ := ih hw2
          exact ⟨item, List.mem_cons_of_mem _ h1, h2, h3, h4⟩
      · rw [standardizeItems, if_neg ha, hg] at hw
        obtain ⟨item, h1, h2, h3, h4⟩ := ih hw
        exact ⟨item, List.mem_cons_of_mem _ h1, h2, h3, h4⟩

theorem standardize_some (data : RawDealData) (S : CompanyStandardizer)
    (l0 : Str) (ls : List Str) (hlead : data.lead_managers = some (l0 :: ls)) :
    standardize_scraped_data data S =
      (some { lead_managers := (standardizeItems S leadWarnMsg (l0 :: ls)).1
              co_managers := (standardizeItems S (unknownWarnMsg "co_managers".data)
                (data.co_managers.getD [])).1
              municipal_advisors := (standardizeItems S
                (unknownWarnMsg "municipal_advisors".data)
                (data.municipal_advisors.getD [])).1
              counsels := (standardizeItems S (unknownWarnMsg "counsels".data)
                (data.counsels.getD [])).1
              os_file_path := data.os_file_path
              unprocessed_deal_scrape :=
                ⟨l0 :: ls, data.co_managers.getD [], data.municipal_advisors.getD [],
                  data.counsels.getD []⟩ },
       (standardizeItems S leadWarnMsg (l0 :: ls)).2 ++
       (standardizeItems S (unknownWarnMsg "co_managers".data)
         (data.co_managers.getD [])).2 ++
       (standardizeItems S (unknownWarnMsg "municipal_advisors".data)
         (data.municipal_advisors.getD [])).2 ++
       (standardizeItems S (unknownWarnMsg "counsels".data)
         (data.counsels.getD [])).2) := by
  rw [standardize_scraped_data, hlead]

theorem length_filter_split (L : List Str) :
    (L.filter (fun i => !(i == []))).length + (L.filter (fun i => i == [])).length =
      L.length := by
  induction L with
  | nil => rfl
  | cons a t ih =>
    by_cases ha : a = []
    · subst ha
      simp at ih ⊢
      omega
    · simp [ha] at ih ⊢
      omega

/-- C6 counterexample: on `c6Data` the lead slot is non-empty and the
non-empty co-manager `"Zzz Nope Co"` does not resolve, yet the output
co-managers slot has length 1 while the input slot has length 2 — the
claim's "output slot has the same length as the input slot" fails. -/
theorem co_manager_unresolved_c6_cex :
    c6Data.lead_managers = some ["Barclays".data] ∧
    "Zzz Nope Co".data ∈ c6Data.co_managers.getD [] ∧
    "Zzz Nope Co".data ≠ [] ∧
    get_canonical_name seedStandardizer "Zzz Nope Co".data = none ∧
    (standardize_scraped_data c6Data seedStandardizer).1.map
      (fun o => o.co_managers.length) = some 1 ∧
    (c6Data.co_managers.getD []).length = 2 := by
  decide

/-- C6 (amended): with a non-empty lead slot and co-managers slot `M`, the
output co-managers slot is exactly the non-empty entries of `M`, in order,
each replaced by its canonical name when resolution succeeds and kept
verbatim otherwise — so an unresolved non-empty entry is not dropped, keeps
its position among the processed entries, and the output length is the
number of non-empty entries of `M` (the full input length when no entry is
empty); moreover a warning naming the slot and the unresolved value is
recorded. -/
theorem co_manager_unresolved_c6 (S : CompanyStandardizer) (data : RawDealData)
    (l0 : Str) (ls M : List Str) (item : Str)
    (hlead : data.lead_managers = some (l0 :: ls))
    (hco : data.co_managers = some M)
    (hitem : item ∈ M) (hne : item ≠ [])
    (hun : get_canonical_name S item = none) :
    (standardize_scraped_data data S).1.map (fun o => o.co_managers) =
      some ((M.filter (fun i => !(i == []))).map
        (fun it => (get_canonical_name S it).getD it)) ∧
    item ∈ (M.filter (fun i => !(i == []))).map
      (fun it => (get_canonical_name S it).getD it) ∧
    unknownWarnMsg "co_managers".data item ∈ (standardize_scraped_data data S).2 := by
  rw [standardize_some data S l0 ls hlead]
  refine ⟨?_, ?_, ?_⟩
  · rw [hco]
    simp [standardizeItems_fst]
  · have hmem : item ∈ M.filter (fun i => !(i == [])) :=
      List.mem_filter.mpr ⟨hitem, by simp [hne]⟩
    have hx : (get_canonical_name S item).getD item = item := by rw [hun]; rfl
    have hin := List.mem_map_of_mem (fun it => (get_canonical_name S it).getD it) hmem
    simp only at hin
    rw [hx] at hin
    exact hin
  · have hm : unknownWarnMsg "co_managers".data item ∈
        (standardizeItems S (unknownWarnMsg "co_managers".data)
          (data.co_managers.getD [])).2 := by
      rw [hco]
      exact standardizeItems_warn_mem S _ M item hitem hne hun
    simp only [List.append_assoc]
    exact List.mem_append_right _ (List.mem_append_left _ hm)

theorem co_manager_unresolved_c6_witness :
    c6Data.lead_managers = some ["Barclays".data] ∧
    c6Data.co_managers = some [[], "Zzz Nope Co".data] ∧
    "Zzz Nope Co".data ∈ [[], "Zzz Nope Co".data] ∧
    "Zzz Nope Co".data ≠ ([] : Str) ∧
    get_canonical_name seedStandardizer "Zzz Nope Co".data = none ∧
    ((standardize_scraped_data c6Data seedStandardizer).1.map (fun o => o.co_managers) =
      some (([[], "Zzz Nope Co".data].filter (fun i => !(i == []))).map
        (fun it => (get_canonical_name seedStandardizer it).getD it)) ∧
    "Zzz Nope Co".data ∈ ([[], "Zzz Nope Co".data].filter (fun i => !(i == []))).map
      (fun it => (get_canonical_name seedStandardizer it).getD it) ∧
    unknownWarnMsg "co_managers".data "Zzz Nope Co".data ∈
      (standardize_scraped_data c6Data seedStandardizer).2) :=
  ⟨rfl, rfl, by decide, by decide, by decide,
    co_manager_unresolved_c6 seedStandardizer c6Data "Barclays".data []
      [[], "Zzz Nope Co".data] "Zzz Nope Co".data rfl rfl (by decide) (by decide) (by decide)⟩
/-- C10: with a non-empty lead slot, every output slot is exactly the
non-empty entries of its input slot (falsy entries silently omitted, no
placeholder), each resolved or kept verbatim; the output co-managers slot is
shorter than its input exactly by the number of empty entries; the embedded
`unprocessed_deal_scrape` copy keeps all slots verbatim, empties included;
and every recorded warning names a non-empty unresolved value (so no warning
is ever recorded for an empty entry). -/
theorem empty_entries_omitted_c10 (S : CompanyStandardizer) (data : RawDealData)
    (l0 : Str) (ls : List Str) (w : Str)
    (hlead : data.lead_managers = some (l0 :: ls)) :
    ((standardize_scraped_data data S).1.map (fun o => o.lead_managers) =
      some (((l0 :: ls).filter (fun i => !(i == []))).map
        (fun it => (get_canonical_name S it).getD it))) ∧
    ((standardize_scraped_data data S).1.map (fun o => o.co_managers) =
      some (((data.co_managers.getD []).filter (fun i => !(i == []))).map
        (fun it => (get_canonical_name S it).getD it))) ∧
    ((standardize_scraped_data data S).1.map (fun o => o.municipal_advisors) =
      some (((data.municipal_advisors.getD []).filter (fun i => !(i == []))).map
        (fun it => (get_canonical_name S it).getD it))) ∧
    ((standardize_scraped_data data S).1.map (fun o => o.counsels) =
      some (((data.counsels.getD []).filter (fun i => !(i == []))).map
        (fun it => (get_canonical_name S it).getD it))) ∧
    ((standardize_scraped_data data S).1.map (fun o => o.unprocessed_deal_scrape) =
      some ⟨l0 :: ls, data.co_managers.getD [], data.municipal_advisors.getD [],
        data.counsels.getD []⟩) ∧
    ((standardize_scraped_data data S).1.map (fun o => o.co_managers.length +
        ((data.co_managers.getD []).filter (fun i => i == [])).length) =
      some (data.co_managers.getD []).length) ∧
    (w ∈ (standardize_scraped_data data S).2 →
      ∃ item, item ≠ [] ∧ get_canonical_name S item = none ∧
      (w = leadWarnMsg item ∨ w = unknownWarnMsg "co_managers".data item ∨
       w = unknownWarnMsg "municipal_advisors".data item ∨
       w = unknownWarnMsg "counsels".data item)) := by
  rw [standardize_some data S l0 ls hlead]
  refine ⟨by simp [standardizeItems_fst], by simp [standardizeItems_fst],
    by simp [standardizeItems_fst], by simp [standardizeItems_fst], by simp, ?_, ?_⟩
  · simp only [standardizeItems_fst, Option.map_some', Option.some.injEq, List.length_map]
    exact length_filter_split _
  · intro hw
    simp only [List.mem_append] at hw
    rcases hw with ((hw | hw) | hw) | hw
    · obtain ⟨item, _, h2, h3, h4⟩ := standardizeItems_warn_shape S _ _ w hw
      exact ⟨item, h2, h3, Or.inl h4⟩
    · obtain ⟨item, _, h2, h3, h4⟩ := standardizeItems_warn_shape S _ _ w hw
      exact ⟨item, h2, h3, Or.inr (Or.inl h4)⟩
    · obtain ⟨item, _, h2, h3, h4⟩ := standardizeItems_warn_shape S _ _ w hw
      exact ⟨item, h2, h3, Or.inr (Or.inr (Or.inl h4))⟩
    · obtain ⟨item, _, h2, h3, h4⟩ := standardizeItems_warn_shape S _ _ w hw
      exact ⟨item, h2, h3, Or.inr (Or.inr (Or.inr h4))⟩

theorem empty_entries_omitted_c10_witness :
    c6Data.lead_managers = some ["Barclays".data] ∧
    (((standardize_scraped_data c6Data seedStandardizer).1.map (fun o => o.lead_managers) =
      some ((["Barclays".data].filter (fun i => !(i == []))).map
        (fun it => (get_canonical_name seedStandardizer it).getD it))) ∧
    ((standardize_scraped_data c6Data seedStandardizer).1.map (fun o => o.co_managers) =
      some (((c6Data.co_managers.getD []).filter (fun i => !(i == []))).map
        (fun it => (get_canonical_name seedStandardizer it).getD it))) ∧
    ((standardize_scraped_data c6Data seedStandardizer).1.map
        (fun o => o.municipal_advisors) =
      some (((c6Data.municipal_advisors.getD []).filter (fun i => !(i == []))).map
        (fun it => (get_canonical_name seedStandardizer it).getD it))) ∧
    ((standardize_scraped_data c6Data seedStandardizer).1.map (fun o => o.counsels) =
      some (((c6Data.counsels.getD []).filter (fun i => !(i == []))).map
        (fun it => (get_canonical_name seedStandardizer it).getD it))) ∧
    ((standardize_scraped_data c6Data seedStandardizer).1.map
        (fun o => o.unprocessed_deal_scrape) =
      some ⟨["Barclays".data], c6Data.co_managers.getD [],
        c6Data.municipal_advisors.getD [], c6Data.counsels.getD []⟩) ∧
    ((standardize_scraped_data c6Data seedStandardizer).1.map
        (fun o => o.co_managers.length +
          ((c6Data.co_managers.getD []).filter (fun i => i == [])).length) =
      some (c6Data.co_managers.getD []).length) ∧
    (c10Warn ∈ (standardize_scraped_data c6Data seedStandardizer).2 →
      ∃ item, item ≠ [] ∧ get_canonical_name seedStandardizer item = none ∧
      (c10Warn = leadWarnMsg item ∨
       c10Warn = unknownWarnMsg "co_managers".data item ∨
       c10Warn = unknownWarnMsg "municipal_advisors".data item ∨
       c10Warn = unknownWarnMsg "counsels".data item))) :=
  ⟨rfl,
    empty_entries_omitted_c10 seedStandardizer c6Data "Barclays".data [] c10Warn rfl⟩

/-! ## C2 and C3: registry-wide resolution -/

theorem httpS_eq : httpS = 'h' :: 't' :: 't' :: 'p' :: ':' :: '/' :: '/' :: [] := rfl

theorem httpsS_eq : httpsS = 'h' :: 't' :: 't' :: 'p' :: 's' :: ':' :: '/' :: '/' :: [] := rfl

theorem wwwS_eq : wwwS = 'w' :: 'w' :: 'w' :: '.' :: [] := rfl

theorem https_not_prefixOf_http_app (X : Str) : httpsS.isPrefixOf (httpS ++ X) = false := rfl

theorem https_not_prefixOf_www_app (X : Str) : httpsS.isPrefixOf (wwwS ++ X) = false := rfl

theorem http_not_prefixOf_www_app (X : Str) : httpS.isPrefixOf (wwwS ++ X) = false := rfl

theorem isPrefixOf_append_self (a b : Str) : a.isPrefixOf (a ++ b) = true :=
  List.isPrefixOf_iff_prefix.mpr (List.prefix_append a b)

theorem prefix_append_cases {a b c : Str} (h : a <+: b ++ c) : a <+: b ∨ b <+: a := by
  induction b generalizing a with
  | nil => right; exact List.nil_prefix
  | cons x b ih =>
    cases a with
    | nil => left; exact List.nil_prefix
    | cons y a =>
      rw [List.cons_append, List.cons_prefix_cons] at h
      obtain ⟨rfl, h2⟩ := h
      rcases ih h2 with h3 | h3
      · left; exact List.cons_prefix_cons.mpr ⟨rfl, h3⟩
      · right; exact List.cons_prefix_cons.mpr ⟨rfl, h3⟩

theorem mapIdOn {f : Char → Char} {l : Str} (h : ∀ c ∈ l, f c = c) : l.map f = l := by
  induction l with
  | nil => rfl
  | cons c t ih =>
    rw [List.map_cons, h c (by simp), ih (fun x hx => h x (List.mem_cons_of_mem _ hx))]

theorem dropWhile_append_of_all {p : Char → Bool} {a : Str} (b : Str)
    (h : ∀ c ∈ a, p c = true) : (a ++ b).dropWhile p = b.dropWhile p := by
  induction a with
  | nil => rfl
  | cons c t ih =>
    rw [List.cons_append, List.dropWhile_cons, if_pos (h c (by simp))]
    exact ih (fun x hx => h x (List.mem_cons_of_mem _ hx))

theorem dropWhile_all_nil {p : Char → Bool} {a : Str} (h : ∀ c ∈ a, p c = true) :
    a.dropWhile p = [] := by
  have := dropWhile_append_of_all (p := p) [] h
  simpa using this

theorem trimLeft_cons_of {c : Char} (hc : isPyWS c = false) (t : Str) :
    trimLeft (c :: t) = c :: t := by
  rw [trimLeft, List.dropWhile_cons, if_neg (by simp [hc])]

theorem head_not_ws_of_trimLeft {c : Char} {t : Str} (h : trimLeft (c :: t) = c :: t) :
    isPyWS c = false := by
  by_contra hc
  have hc2 : isPyWS c = true := by
    cases hx : isPyWS c
    · exact absurd hx hc
    · rfl
  rw [trimLeft, List.dropWhile_cons, if_pos (by simp [hc2])] at h
  have hle : (List.dropWhile isPyWS t).length ≤ t.length :=
    (List.dropWhile_sublist isPyWS).length_le
  rw [h] at hle
  simp at hle

theorem dropWhile_append_stop (p : Char → Bool) (e : Char) (he : p e = false)
    (x y : Str) : (x ++ e :: y).dropWhile p = x.dropWhile p ++ e :: y := by
  induction x with
  | nil =>
    simp only [List.nil_append, List.dropWhile_nil]
    rw [List.dropWhile_cons, if_neg (by simp [he])]
  | cons c t ih =>
    rw [List.cons_append, List.dropWhile_cons, List.dropWhile_cons]
    by_cases hc : p c = true
    · rw [if_pos (by simp [hc]), if_pos (by simp [hc]), ih]
    · rw [if_neg hc, if_neg hc, List.cons_append]

theorem trimRight_append_nonws {b : Str} (a : Str) (hb : b ≠ [])
    (hall : ∀ c ∈ b, isPyWS c = false) : trimRight (a ++ b) = a ++ b := by
  rw [trimRight, List.reverse_append]
  cases hrev : b.reverse with
  | nil => exact absurd (by simpa using hrev) hb
  | cons c t =>
    have hc : isPyWS c = false := by
      apply hall
      have : c ∈ b.reverse := by rw [hrev]; simp
      exact List.mem_reverse.mp this
    rw [List.cons_append, List.dropWhile_cons, if_neg (by simp [hc]),
      ← List.cons_append, ← hrev, List.reverse_append, List.reverse_reverse,
      List.reverse_reverse]

theorem trimRight_append_slash (a r : Str) :
    trimRight (a ++ '/' :: r) = a ++ '/' :: trimRight r := by
  rw [trimRight, List.reverse_append, List.reverse_cons, List.append_assoc,
    List.singleton_append,
    dropWhile_append_stop isPyWS '/' rfl r.reverse a.reverse,
    List.reverse_append, List.reverse_cons, trimRight]
  rw [List.append_assoc, List.singleton_append, List.reverse_reverse]

theorem takeWhile_all {p : Char → Bool} {l : Str} (h : ∀ c ∈ l, p c = true) :
    l.takeWhile p = l := by
  induction l with
  | nil => rfl
  | cons c t ih =>
    rw [List.takeWhile_cons, if_pos (h c (by simp))]
    rw [ih (fun x hx => h x (List.mem_cons_of_mem _ hx))]

theorem takeWhile_append_stop (p : Char → Bool) (e : Char) {d : Str}
    (hd : ∀ c ∈ d, p c = true) (he : p e = false) (y : Str) :
    (d ++ e :: y).takeWhile p = d := by
  induction d with
  | nil =>
    simp only [List.nil_append]
    rw [List.takeWhile_cons, if_neg (by simp [he])]
  | cons c t ih =>
    rw [List.cons_append, List.takeWhile_cons, if_pos (hd c (by simp))]
    rw [ih (fun x hx => hd x (List.mem_cons_of_mem _ hx))]

theorem ws_ne_h_w {c : Char} (hc : isPyWS c = true) : c ≠ 'h' ∧ c ≠ 'w' := by
  have : c = ' ' ∨ c = '\t' ∨ c = '\n' ∨ c = '\r' ∨ c = Char.ofNat 11 ∨ c = Char.ofNat 12 := by
    simpa [isPyWS, or_assoc] using hc
  rcases this with rfl | rfl | rfl | rfl | rfl | rfl <;> exact ⟨by decide, by decide⟩

theorem not_prefix_of_head_ne {a b : Char} {l1 l2 : Str} (h : a ≠ b) :
    ¬ (a :: l1 <+: b :: l2) := by
  intro hp
  exact h (List.cons_prefix_cons.mp hp).1

theorem urlLike_eq_false_iff (s : Str) :
    urlLike s = false ↔ ¬ (httpS <+: s) ∧ ¬ (httpsS <+: s) ∧ ¬ (wwwS <+: s) := by
  rw [urlLike]
  constructor
  · intro h
    simp only [Bool.or_eq_false_iff] at h
    exact ⟨fun hp => by rw [List.isPrefixOf_iff_prefix.mpr hp] at h; simp at h,
      fun hp => by rw [List.isPrefixOf_iff_prefix.mpr hp] at h; simp at h,
      fun hp => by rw [List.isPrefixOf_iff_prefix.mpr hp] at h; simp at h⟩
  · rintro ⟨h1, h2, h3⟩
    simp only [Bool.or_eq_false_iff]
    refine ⟨⟨?_, ?_⟩, ?_⟩ <;>
      { cases hx : List.isPrefixOf _ s
        · rfl
        · first
          | exact absurd (List.isPrefixOf_iff_prefix.mp hx) h1
          | exact absurd (List.isPrefixOf_iff_prefix.mp hx) h2
          | exact absurd (List.isPrefixOf_iff_prefix.mp hx) h3 }

theorem pyStrip_padded {v ws1 ws2 : Str}
    (h1 : ∀ c ∈ ws1, isPyWS c = true) (h2 : ∀ c ∈ ws2, isPyWS c = true)
    (hL : trimLeft v = v) (hR : trimRight v = v) :
    pyStrip (ws1 ++ v ++ ws2) = v := by
  rw [pyStrip, List.append_assoc, trimLeft, dropWhile_append_of_all (v ++ ws2) h1,
    ← trimLeft]
  cases v with
  | nil =>
    rw [List.nil_append, trimLeft, dropWhile_all_nil h2]
    rfl
  | cons c t =>
    have hc : isPyWS c = false := head_not_ws_of_trimLeft hL
    rw [List.cons_append, trimLeft_cons_of hc, ← List.cons_append, trimRight,
      List.reverse_append, dropWhile_append_of_all (c :: t).reverse
        (fun x hx => h2 x (List.mem_reverse.mp hx))]
    have hrev : (c :: t).reverse.dropWhile isPyWS = (c :: t).reverse := by
      have := congrArg List.reverse hR
      rw [trimRight, List.reverse_reverse] at this
      calc (c :: t).reverse.dropWhile isPyWS
          = ((c :: t).reverse.dropWhile isPyWS).reverse.reverse := by
            rw [List.reverse_reverse]
        _ = (c :: t).reverse := by rw [this, List.reverse_reverse]
    rw [hrev, List.reverse_reverse]

theorem urlLike_padded_false {v ws1 ws2 : Str}
    (h1 : ∀ c ∈ ws1, isPyWS c = true) (hv : GoodVariant v) :
    urlLike (ws1 ++ v ++ ws2) = false := by
  obtain ⟨hne, hL, hR, hurl, hp1, hp2, hp3⟩ := hv
  rw [urlLike_eq_false_iff] at hurl ⊢
  obtain ⟨hu1, hu2, hu3⟩ := hurl
  cases ws1 with
  | cons c t =>
    have hc := ws_ne_h_w (h1 c (by simp))
    rw [httpS_eq, httpsS_eq, wwwS_eq, List.cons_append]
    exact ⟨not_prefix_of_head_ne (fun he => hc.1 he.symm),
      not_prefix_of_head_ne (fun he => hc.1 he.symm),
      not_prefix_of_head_ne (fun he => hc.2 he.symm)⟩
  | nil =>
    rw [List.nil_append]
    refine ⟨?_, ?_, ?_⟩ <;> intro hp
    · rcases prefix_append_cases hp with h | h
      · exact hu1 h
      · exact hp1 h
    · rcases prefix_append_cases hp with h | h
      · exact hu2 h
      · exact hp2 h
    · rcases prefix_append_cases hp with h | h
      · exact hu3 h
      · exact hp3 h

theorem get_canonical_name_padded (S : CompanyStandardizer) {v ws1 ws2 : Str}
    (hv : GoodVariant v)
    (h1 : ∀ c ∈ ws1, isPyWS c = true) (h2 : ∀ c ∈ ws2, isPyWS c = true) :
    get_canonical_name S (ws1 ++ v ++ ws2) = dictGet S.name_to_canonical v := by
  have hne : ws1 ++ v ++ ws2 ≠ [] := by
    intro h
    rw [List.append_assoc, List.append_eq_nil, List.append_eq_nil] at h
    exact hv.1 h.2.1
  rw [get_canonical_name, if_neg hne, if_neg (by
    rw [urlLike_padded_false h1 hv]
    simp),
    pyStrip_padded h1 h2 hv.2.1 hv.2.2.1]

theorem drop_www (X : Str) : (wwwS ++ X).drop 4 = X := by
  rw [show (4 : Nat) = wwwS.length from rfl, List.drop_left]

theorem drop_http (X : Str) : (httpS ++ X).drop 7 = X := by
  rw [show (7 : Nat) = httpS.length from rfl, List.drop_left]

theorem drop_https (X : Str) : (httpsS ++ X).drop 8 = X := by
  rw [show (8 : Nat) = httpsS.length from rfl, List.drop_left]

theorem not_prefixOf_of_not_prefix {P X : Str} (h1 : ¬ P <+: X) (h2 : ¬ X <+: P)
    (tail : Str) : P.isPrefixOf (X ++ tail) = false := by
  cases hx : P.isPrefixOf (X ++ tail)
  · rfl
  · exfalso
    rcases prefix_append_cases (List.isPrefixOf_iff_prefix.mp hx) with h | h
    · exact h1 h
    · exact h2 h

theorem stripSchemeWWW_cases (d tail : Str)
    (h1 : ¬ httpS <+: d) (h2 : ¬ d <+: httpS) (h3 : ¬ httpsS <+: d) (h4 : ¬ d <+: httpsS)
    (h5 : ¬ wwwS <+: d) (h6 : ¬ d <+: wwwS) (sch pre : Str)
    (hs : sch = [] ∨ sch = httpS ∨ sch = httpsS) (hp : pre = [] ∨ pre = wwwS) :
    stripSchemeWWW (sch ++ (pre ++ (d ++ tail))) = d ++ tail := by
  have hXw : wwwS.isPrefixOf (d ++ tail) = false := not_prefixOf_of_not_prefix h5 h6 tail
  have hXh : httpS.isPrefixOf (d ++ tail) = false := not_prefixOf_of_not_prefix h1 h2 tail
  have hXs : httpsS.isPrefixOf (d ++ tail) = false := not_prefixOf_of_not_prefix h3 h4 tail
  rcases hs with rfl | rfl | rfl <;> rcases hp with rfl | rfl
  · simp only [List.nil_append]
    rw [stripSchemeWWW]
    simp [hXw, hXh, hXs]
  · simp only [List.nil_append]
    rw [stripSchemeWWW]
    simp [https_not_prefixOf_www_app, http_not_prefixOf_www_app,
      isPrefixOf_append_self, drop_www]
  · rw [stripSchemeWWW]
    simp [https_not_prefixOf_http_app, isPrefixOf_append_self, drop_http,
      List.nil_append, hXw]
  · rw [stripSchemeWWW]
    simp [https_not_prefixOf_http_app, isPrefixOf_append_self, drop_http,
      drop_www]
  · rw [stripSchemeWWW]
    simp [isPrefixOf_append_self, drop_https, List.nil_append, hXw]
  · rw [stripSchemeWWW]
    simp [isPrefixOf_append_self, drop_https, drop_www]

theorem clean_website_eq (d : Str) (hd : GoodDomain d) (sch pre tail : Str)
    (hs : sch = [] ∨ sch = httpS ∨ sch = httpsS) (hp : pre = [] ∨ pre = wwwS)
    (ht : tail = [] ∨ ∃ r : Str, tail = '/' :: r) :
    clean_website (sch ++ (pre ++ (d ++ tail))) = some d := by
  obtain ⟨hne, hchars, h1, h2, h3, h4, h5, h6⟩ := hd
  have hu_ne : sch ++ (pre ++ (d ++ tail)) ≠ [] := by
    simp [List.append_eq_nil, hne]
  rw [clean_website, if_neg hu_ne]
  have hld : d.map Char.toLower = d := mapIdOn (fun c hc => (hchars c hc).2.2)
  have hls : sch.map Char.toLower = sch := by rcases hs with rfl | rfl | rfl <;> rfl
  have hlp : pre.map Char.toLower = pre := by rcases hp with rfl | rfl <;> rfl
  have hlow : pyLower (sch ++ (pre ++ (d ++ tail))) =
      sch ++ (pre ++ (d ++ pyLower tail)) := by
    rw [pyLower, List.map_append, List.map_append, List.map_append, hld, hls, hlp]
    rfl
  have hTL : ∀ X : Str, trimLeft (sch ++ (pre ++ (d ++ X))) =
      sch ++ (pre ++ (d ++ X)) := by
    intro X
    rcases hs with rfl | rfl | rfl
    · rcases hp with rfl | rfl
      · obtain ⟨c, t, rfl⟩ := List.exists_cons_of_ne_nil hne
        simp only [List.nil_append, List.cons_append]
        exact trimLeft_cons_of ((hchars c (by simp)).1) _
      · simp only [List.nil_append, wwwS_eq, List.cons_append]
        exact trimLeft_cons_of (by decide) _
    · rw [httpS_eq]
      simp only [List.cons_append]
      exact trimLeft_cons_of (by decide) _
    · rw [httpsS_eq]
      simp only [List.cons_append]
      exact trimLeft_cons_of (by decide) _
  rcases ht with rfl | ⟨r, rfl⟩
  · rw [hlow]
    rw [show pyLower ([] : Str) = [] from rfl, pyStrip, hTL []]
    rw [List.append_nil]
    rw [show sch ++ (pre ++ d) = (sch ++ pre) ++ d from (List.append_assoc sch pre d).symm]
    rw [trimRight_append_nonws (sch ++ pre) hne (fun c hc => (hchars c hc).1)]
    rw [List.append_assoc]
    rw [show sch ++ (pre ++ d) = sch ++ (pre ++ (d ++ [])) from by rw [List.append_nil]]
    rw [stripSchemeWWW_cases d [] h1 h2 h3 h4 h5 h6 sch pre hs hp]
    rw [List.append_nil]
    show some (List.takeWhile (fun c => decide (c ≠ '/')) d) = some d
    rw [takeWhile_all (fun c hc => decide_eq_true ((hchars c hc).2.1))]
  · rw [hlow]
    rw [show pyLower ('/' :: r) = '/' :: pyLower r from rfl, pyStrip,
      hTL ('/' :: pyLower r)]
    rw [show sch ++ (pre ++ (d ++ '/' :: pyLower r)) =
        (sch ++ (pre ++ d)) ++ '/' :: pyLower r from by
      rw [List.append_assoc, List.append_assoc]]
    rw [trimRight_append_slash]
    rw [List.append_assoc sch (pre ++ d) ('/' :: trimRight (pyLower r)),
      List.append_assoc pre d ('/' :: trimRight (pyLower r))]
    rw [stripSchemeWWW_cases d ('/' :: trimRight (pyLower r)) h1 h2 h3 h4 h5 h6 sch pre hs hp]
    show some (List.takeWhile (fun c => decide (c ≠ '/'))
      (d ++ '/' :: trimRight (pyLower r))) = some d
    rw [takeWhile_append_stop _ '/' (fun c hc => decide_eq_true ((hchars c hc).2.1))
      (by decide) (trimRight (pyLower r))]

theorem nameIdx_eq : seedStandardizer.name_to_canonical = nameIdxLit := by decide

theorem webIdx_eq : seedStandardizer.website_to_canonical = webIdxLit := by decide

theorem all_of_chunks {E : Type} (P : E → Prop) (l : List E) (n : Nat)
    (h1 : ∀ e ∈ l.take n, P e) (h2 : ∀ e ∈ l.drop n, P e) : ∀ e ∈ l, P e := by
  intro e he
  have hm : e ∈ l.take n ++ l.drop n := by
    rw [List.take_append_drop]
    exact he
  rcases List.mem_append.mp hm with h | h
  · exact h1 e h
  · exact h2 e h

theorem nameChunkOk_spec (es : List (Str × List Str × List Str))
    (h : nameChunkOk es = true) :
    ∀ e ∈ es, ∀ v ∈ e.2.1, GoodVariant v ∧ dictGet nameIdxLit v = some e.1 := by
  intro e he v hv
  rw [nameChunkOk, List.all_eq_true] at h
  have h2 := List.all_eq_true.mp (h e he) v hv
  rw [Bool.and_eq_true] at h2
  exact ⟨of_decide_eq_true h2.1, by simpa using h2.2⟩

theorem webChunkOk_spec (es : List (Str × List Str × List Str))
    (h : webChunkOk es = true) :
    ∀ e ∈ es, ∀ w ∈ e.2.2, ∀ d, clean_website w = some d → d ≠ [] →
      GoodDomain d ∧ dictGet webIdxLit d = some e.1 := by
  intro e he w hw d hcw hd
  rw [webChunkOk, List.all_eq_true] at h
  have h2 := List.all_eq_true.mp (h e he) w hw
  unfold webEntryOk at h2
  rw [hcw] at h2
  change (d == [] || (decide (GoodDomain d) && (dictGet webIdxLit d == some e.1))) = true at h2
  rw [Bool.or_eq_true] at h2
  rcases h2 with h2 | h2
  · exact absurd (by simpa using h2) hd
  · rw [Bool.and_eq_true] at h2
    exact ⟨of_decide_eq_true h2.1, by simpa using h2.2⟩

theorem nameChunk0 : nameChunkOk ((seedEntries.drop 0).take 8) = true := by decide

theorem nameChunk1 : nameChunkOk ((seedEntries.drop 8).take 8) = true := by decide

theorem nameChunk2 : nameChunkOk ((seedEntries.drop 16).take 8) = true := by decide

theorem nameChunk3 : nameChunkOk ((seedEntries.drop 24).take 8) = true := by decide

theorem nameChunk4 : nameChunkOk ((seedEntries.drop 32).take 8) = true := by decide

theorem nameChunk5 : nameChunkOk ((seedEntries.drop 40).take 8) = true := by decide

theorem nameChunk6 : nameChunkOk ((seedEntries.drop 48).take 8) = true := by decide

theorem nameChunk7 : nameChunkOk ((seedEntries.drop 56).take 8) = true := by decide

theorem nameChunk8 : nameChunkOk ((seedEntries.drop 64).take 8) = true := by decide

theorem nameChunk9 : nameChunkOk ((seedEntries.drop 72).take 8) = true := by decide

theorem nameChunk10 : nameChunkOk ((seedEntries.drop 80).take 8) = true := by decide

theorem nameChunk11 : nameChunkOk ((seedEntries.drop 88).take 8) = true := by decide

theorem nameChunk12 : nameChunkOk ((seedEntries.drop 96).take 8) = true := by decide

theorem nameChunk13 : nameChunkOk ((seedEntries.drop 104).take 8) = true := by decide

theorem nameChunk14 : nameChunkOk ((seedEntries.drop 112).take 8) = true := by decide

theorem nameChunk15 : nameChunkOk ((seedEntries.drop 120).take 8) = true := by decide

theorem nameChunk16 : nameChunkOk ((seedEntries.drop 128).take 8) = true := by decide

theorem nameChunk17 : nameChunkOk ((seedEntries.drop 136).take 8) = true := by decide

theorem nameChunk18 : nameChunkOk ((seedEntries.drop 144).take 8) = true := by decide

theorem nameChunk19 : nameChunkOk ((seedEntries.drop 152).take 8) = true := by decide

theorem webChunk0 : webChunkOk ((seedEntries.drop 0).take 16) = true := by decide

theorem webChunk1 : webChunkOk ((seedEntries.drop 16).take 16) = true := by decide

theorem webChunk2 : webChunkOk ((seedEntries.drop 32).take 16) = true := by decide

theorem webChunk3 : webChunkOk ((seedEntries.drop 48).take 16) = true := by decide

theorem webChunk4 : webChunkOk ((seedEntries.drop 64).take 16) = true := by decide

theorem webChunk5 : webChunkOk ((seedEntries.drop 80).take 16) = true := by decide

theorem webChunk6 : webChunkOk ((seedEntries.drop 96).take 16) = true := by decide

theorem webChunk7 : webChunkOk ((seedEntries.drop 112).take 16) = true := by decide

theorem webChunk8 : webChunkOk ((seedEntries.drop 128).take 16) = true := by decide

theorem webChunk9 : webChunkOk ((seedEntries.drop 144).take 16) = true := by decide

theorem seedNames_all : ∀ e ∈ seedEntries, ∀ v ∈ e.2.1, GoodVariant v ∧ dictGet nameIdxLit v = some e.1 := by
  have h160 : ∀ e ∈ seedEntries.drop 160, ∀ v ∈ e.2.1, GoodVariant v ∧ dictGet nameIdxLit v = some e.1 := by
    intro e he
    rw [show seedEntries.drop 160 = [] from by decide] at he
    cases he
  have h152 : ∀ e ∈ seedEntries.drop 152, ∀ v ∈ e.2.1, GoodVariant v ∧ dictGet nameIdxLit v = some e.1 := by
    apply all_of_chunks _ (seedEntries.drop 152) 8 (nameChunkOk_spec _ nameChunk19)
    rw [List.drop_drop]
    exact h160
  have h144 : ∀ e ∈ seedEntries.drop 144, ∀ v ∈ e.2.1, GoodVariant v ∧ dictGet nameIdxLit v = some e.1 := by
    apply all_of_chunks _ (seedEntries.drop 144) 8 (nameChunkOk_spec _ nameChunk18)
    rw [List.drop_drop]
    exact h152
  have h136 : ∀ e ∈ seedEntries.drop 136, ∀ v ∈ e.2.1, GoodVariant v ∧ dictGet nameIdxLit v = some e.1 := by
    apply all_of_chunks _ (seedEntries.drop 136) 8 (nameChunkOk_spec _ nameChunk17)
    rw [List.drop_drop]
    exact h144
  have h128 : ∀ e ∈ seedEntries.drop 128, ∀ v ∈ e.2.1, GoodVariant v ∧ dictGet nameIdxLit v = some e.1 := by
    apply all_of_chunks _ (seedEntries.drop 128) 8 (nameChunkOk_spec _ nameChunk16)
    rw [List.drop_drop]
    exact h136
  have h120 : ∀ e ∈ seedEntries.drop 120, ∀ v ∈ e.2.1, GoodVariant v ∧ dictGet nameIdxLit v = some e.1 := by
    apply all_of_chunks _ (seedEntries.drop 120) 8 (nameChunkOk_spec _ nameChunk15)
    rw [List.drop_drop]
    exact h128
  have h112 : ∀ e ∈ seedEntries.drop 112, ∀ v ∈ e.2.1, GoodVariant v ∧ dictGet nameIdxLit v = some e.1 := by
    apply all_of_chunks _ (seedEntries.drop 112) 8 (nameChunkOk_spec _ nameChunk14)
    rw [List.drop_drop]
    exact h120
  have h104 : ∀ e ∈ seedEntries.drop 104, ∀ v ∈ e.2.1, GoodVariant v ∧ dictGet nameIdxLit v = some e.1 := by
    apply all_of_chunks _ (seedEntries.drop 104) 8 (nameChunkOk_spec _ nameChunk13)
    rw [List.drop_drop]
    exact h112
  have h96 : ∀ e ∈ seedEntries.drop 96, ∀ v ∈ e.2.1, GoodVariant v ∧ dictGet nameIdxLit v = some e.1 := by
    apply all_of_chunks _ (seedEntries.drop 96) 8 (nameChunkOk_spec _ nameChunk12)
    rw [List.drop_drop]
    exact h104
  have h88 : ∀ e ∈ seedEntries.drop 88, ∀ v ∈ e.2.1, GoodVariant v ∧ dictGet nameIdxLit v = some e.1 := by
    apply all_of_chunks _ (seedEntries.drop 88) 8 (nameChunkOk_spec _ nameChunk11)
    rw [List.drop_drop]
    exact h96
  have h80 : ∀ e ∈ seedEntries.drop 80, ∀ v ∈ e.2.1, GoodVariant v ∧ dictGet nameIdxLit v = some e.1 := by
    apply all_of_chunks _ (seedEntries.drop 80) 8 (nameChunkOk_spec _ nameChunk10)
    rw [List.drop_drop]
    exact h88
  have h72 : ∀ e ∈ seedEntries.drop 72, ∀ v ∈ e.2.1, GoodVariant v ∧ dictGet nameIdxLit v = some e.1 := by
    apply all_of_chunks _ (seedEntries.drop 72) 8 (nameChunkOk_spec _ nameChunk9)
    rw [List.drop_drop]
    exact h80
  have h64 : ∀ e ∈ seedEntries.drop 64, ∀ v ∈ e.2.1, GoodVariant v ∧ dictGet nameIdxLit v = some e.1 := by
    apply all_of_chunks _ (seedEntries.drop 64) 8 (nameChunkOk_spec _ nameChunk8)
    rw [List.drop_drop]
    exact h72
  have h56 : ∀ e ∈ seedEntries.drop 56, ∀ v ∈ e.2.1, GoodVariant v ∧ dictGet nameIdxLit v = some e.1 := by
    apply all_of_chunks _ (seedEntries.drop 56) 8 (nameChunkOk_spec _ nameChunk7)
    rw [List.drop_drop]
    exact h64
  have h48 : ∀ e ∈ seedEntries.drop 48, ∀ v ∈ e.2.1, GoodVariant v ∧ dictGet nameIdxLit v = some e.1 := by
    apply all_of_chunks _ (seedEntries.drop 48) 8 (nameChunkOk_spec _ nameChunk6)
    rw [List.drop_drop]
    exact h56
  have h40 : ∀ e ∈ seedEntries.drop 40, ∀ v ∈ e.2.1, GoodVariant v ∧ dictGet nameIdxLit v = some e.1 := by
    apply all_of_chunks _ (seedEntries.drop 40) 8 (nameChunkOk_spec _ nameChunk5)
    rw [List.drop_drop]
    exact h48
  have h32 : ∀ e ∈ seedEntries.drop 32, ∀ v ∈ e.2.1, GoodVariant v ∧ dictGet nameIdxLit v = some e.1 := by
    apply all_of_chunks _ (seedEntries.drop 32) 8 (nameChunkOk_spec _ nameChunk4)
    rw [List.drop_drop]
    exact h40
  have h24 : ∀ e ∈ seedEntries.drop 24, ∀ v ∈ e.2.1, GoodVariant v ∧ dictGet nameIdxLit v = some e.1 := by
    apply all_of_chunks _ (seedEntries.drop 24) 8 (nameChunkOk_spec _ nameChunk3)
    rw [List.drop_drop]
    exact h32
  have h16 : ∀ e ∈ seedEntries.drop 16, ∀ v ∈ e.2.1, GoodVariant v ∧ dictGet nameIdxLit v = some e.1 := by
    apply all_of_chunks _ (seedEntries.drop 16) 8 (nameChunkOk_spec _ nameChunk2)
    rw [List.drop_drop]
    exact h24
  have h8 : ∀ e ∈ seedEntries.drop 8, ∀ v ∈ e.2.1, GoodVariant v ∧ dictGet nameIdxLit v = some e.1 := by
    apply all_of_chunks _ (seedEntries.drop 8) 8 (nameChunkOk_spec _ nameChunk1)
    rw [List.drop_drop]
    exact h16
  have h0 : ∀ e ∈ seedEntries.drop 0, ∀ v ∈ e.2.1, GoodVariant v ∧ dictGet nameIdxLit v = some e.1 := by
    apply all_of_chunks _ (seedEntries.drop 0) 8 (nameChunkOk_spec _ nameChunk0)
    rw [List.drop_drop]
    exact h8
  have h := h0
  rw [List.drop_zero] at h
  exact h

theorem seedWebs_all : ∀ e ∈ seedEntries, ∀ w ∈ e.2.2, ∀ d, clean_website w = some d → d ≠ [] → GoodDomain d ∧ dictGet webIdxLit d = some e.1 := by
  have h160 : ∀ e ∈ seedEntries.drop 160, ∀ w ∈ e.2.2, ∀ d, clean_website w = some d → d ≠ [] → GoodDomain d ∧ dictGet webIdxLit d = some e.1 := by
    intro e he
    rw [show seedEntries.drop 160 = [] from by decide] at he
    cases he
  have h144 : ∀ e ∈ seedEntries.drop 144, ∀ w ∈ e.2.2, ∀ d, clean_website w = some d → d ≠ [] → GoodDomain d ∧ dictGet webIdxLit d = some e.1 := by
    apply all_of_chunks _ (seedEntries.drop 144) 16 (webChunkOk_spec _ webChunk9)
    rw [List.drop_drop]
    exact h160
  have h128 : ∀ e ∈ seedEntries.drop 128, ∀ w ∈ e.2.2, ∀ d, clean_website w = some d → d ≠ [] → GoodDomain d ∧ dictGet webIdxLit d = some e.1 := by
    apply all_of_chunks _ (seedEntries.drop 128) 16 (webChunkOk_spec _ webChunk8)
    rw [List.drop_drop]
    exact h144
  have h112 : ∀ e ∈ seedEntries.drop 112, ∀ w ∈ e.2.2, ∀ d, clean_website w = some d → d ≠ [] → GoodDomain d ∧ dictGet webIdxLit d = some e.1 := by
    apply all_of_chunks _ (seedEntries.drop 112) 16 (webChunkOk_spec _ webChunk7)
    rw [List.drop_drop]
    exact h128
  have h96 : ∀ e ∈ seedEntries.drop 96, ∀ w ∈ e.2.2, ∀ d, clean_website w = some d → d ≠ [] → GoodDomain d ∧ dictGet webIdxLit d = some e.1 := by
    apply all_of_chunks _ (seedEntries.drop 96) 16 (webChunkOk_spec _ webChunk6)
    rw [List.drop_drop]
    exact h112
  have h80 : ∀ e ∈ seedEntries.drop 80, ∀ w ∈ e.2.2, ∀ d, clean_website w = some d → d ≠ [] → GoodDomain d ∧ dictGet webIdxLit d = some e.1 := by
    apply all_of_chunks _ (seedEntries.drop 80) 16 (webChunkOk_spec _ webChunk5)
    rw [List.drop_drop]
    exact h96
  have h64 : ∀ e ∈ seedEntries.drop 64, ∀ w ∈ e.2.2, ∀ d, clean_website w = some d → d ≠ [] → GoodDomain d ∧ dictGet webIdxLit d = some e.1 := by
    apply all_of_chunks _ (seedEntries.drop 64) 16 (webChunkOk_spec _ webChunk4)
    rw [List.drop_drop]
    exact h80
  have h48 : ∀ e ∈ seedEntries.drop 48, ∀ w ∈ e.2.2, ∀ d, clean_website w = some d → d ≠ [] → GoodDomain d ∧ dictGet webIdxLit d = some e.1 := by
    apply all_of_chunks _ (seedEntries.drop 48) 16 (webChunkOk_spec _ webChunk3)
    rw [List.drop_drop]
    exact h64
  have h32 : ∀ e ∈ seedEntries.drop 32, ∀ w ∈ e.2.2, ∀ d, clean_website w = some d → d ≠ [] → GoodDomain d ∧ dictGet webIdxLit d = some e.1 := by
    apply all_of_chunks _ (seedEntries.drop 32) 16 (webChunkOk_spec _ webChunk2)
    rw [List.drop_drop]
    exact h48
  have h16 : ∀ e ∈ seedEntries.drop 16, ∀ w ∈ e.2.2, ∀ d, clean_website w = some d → d ≠ [] → GoodDomain d ∧ dictGet webIdxLit d = some e.1 := by
    apply all_of_chunks _ (seedEntries.drop 16) 16 (webChunkOk_spec _ webChunk1)
    rw [List.drop_drop]
    exact h32
  have h0 : ∀ e ∈ seedEntries.drop 0, ∀ w ∈ e.2.2, ∀ d, clean_website w = some d → d ≠ [] → GoodDomain d ∧ dictGet webIdxLit d = some e.1 := by
    apply all_of_chunks _ (seedEntries.drop 0) 16 (webChunkOk_spec _ webChunk0)
    rw [List.drop_drop]
    exact h16
  have h := h0
  rw [List.drop_zero] at h
  exact h

theorem seedName_fact (e : Str × List Str × List Str) (v : Str)
    (he : e ∈ seedEntries) (hv : v ∈ e.2.1) :
    GoodVariant v ∧ dictGet seedStandardizer.name_to_canonical v = some e.1 := by
  rw [nameIdx_eq]
  exact seedNames_all e he v hv

theorem seedWeb_fact (e : Str × List Str × List Str) (w d : Str)
    (he : e ∈ seedEntries) (hw : w ∈ e.2.2)
    (hcw : clean_website w = some d) (hd : d ≠ []) :
    GoodDomain d ∧ dictGet seedStandardizer.website_to_canonical d = some e.1 := by
  rw [webIdx_eq]
  exact seedWebs_all e he w hw d hcw hd

/-- C3: for every seed entry and every one of its registered name variants
`v`, name resolution of `v` surrounded by arbitrary (possibly empty) extra
leading and trailing whitespace returns that entry's canonical name. -/
theorem name_resolution_c3 (e : Str × List Str × List Str) (v ws1 ws2 : Str)
    (he : e ∈ seedEntries) (hv : v ∈ e.2.1)
    (h1 : ∀ c ∈ ws1, isPyWS c = true) (h2 : ∀ c ∈ ws2, isPyWS c = true) :
    get_canonical_name seedStandardizer (ws1 ++ v ++ ws2) = some e.1 := by
  obtain ⟨hgv, hlook⟩ := seedName_fact e v he hv
  rw [get_canonical_name_padded seedStandardizer hgv h1 h2, hlook]

theorem name_resolution_c3_witness :
    seedHead ∈ seedEntries ∧ "Barclays".data ∈ seedHead.2.1 ∧
    (∀ c ∈ " ".data, isPyWS c = true) ∧ (∀ c ∈ "\t ".data, isPyWS c = true) ∧
    get_canonical_name seedStandardizer (" ".data ++ "Barclays".data ++ "\t ".data) =
      some seedHead.1 :=
  ⟨by decide, by decide, by decide, by decide,
    name_resolution_c3 seedHead "Barclays".data " ".data "\t ".data (by decide)
      (by decide) (by decide) (by decide)⟩

/-- C2 counterexample: `barclays.com` is a registered domain of the entity
`Barclays Capital`, but the URL formed from it by appending a query string
directly (no slash) does not resolve at all — `clean_website` only cuts at
`/`, so the lookup key becomes `barclays.com?e=1` and misses the index. -/
theorem website_resolution_c2_cex :
    (∃ e ∈ seedEntries, e.1 = "Barclays Capital".data ∧ "barclays.com".data ∈ e.2.2) ∧
    clean_website "barclays.com?e=1".data = some "barclays.com?e=1".data ∧
    get_canonical_name_from_website seedStandardizer "barclays.com?e=1".data = none := by
  decide

/-- C2 (amended): for every seed entry and registered (non-falsy) domain `d`
of one of its websites, every URL formed from `d` with or without an
`http://`/`https://` scheme, with or without a leading `www.`, and with or
without a trailing slash followed by an arbitrary path/query, resolves via
website resolution to that entry's canonical name.  (A query string appended
directly to the bare domain, without a slash, is not recognised — see the
counterexample.) -/
theorem website_resolution_c2 (e : Str × List Str × List Str) (w d sch pre rest : Str)
    (he : e ∈ seedEntries) (hw : w ∈ e.2.2)
    (hcw : clean_website w = some d) (hd : d ≠ [])
    (hs : sch = [] ∨ sch = httpS ∨ sch = httpsS) (hp : pre = [] ∨ pre = wwwS) :
    get_canonical_name_from_website seedStandardizer (sch ++ (pre ++ d)) = some e.1 ∧
    get_canonical_name_from_website seedStandardizer
      (sch ++ (pre ++ (d ++ '/' :: rest))) = some e.1 := by
  obtain ⟨hgd, hlook⟩ := seedWeb_fact e w d he hw hcw hd
  constructor
  · have hne : sch ++ (pre ++ d) ≠ [] := by
      simp [List.append_eq_nil, hd]
    have hcw2 : clean_website (sch ++ (pre ++ d)) = some d := by
      have hx := clean_website_eq d hgd sch pre [] hs hp (Or.inl rfl)
      rwa [List.append_nil] at hx
    rw [get_canonical_name_from_website, if_neg hne, hcw2]
    exact hlook
  · have hne : sch ++ (pre ++ (d ++ '/' :: rest)) ≠ [] := by
      simp [List.append_eq_nil, hd]
    have hcw2 : clean_website (sch ++ (pre ++ (d ++ '/' :: rest))) = some d :=
      clean_website_eq d hgd sch pre ('/' :: rest) hs hp (Or.inr ⟨rest, rfl⟩)
    rw [get_canonical_name_from_website, if_neg hne, hcw2]
    exact hlook

theorem website_resolution_c2_witness :
    seedHead ∈ seedEntries ∧ "barclays.com".data ∈ seedHead.2.2 ∧
    clean_website "barclays.com".data = some "barclays.com".data ∧
    "barclays.com".data ≠ ([] : Str) ∧
    (httpsS = ([] : Str) ∨ httpsS = httpS ∨ httpsS = httpsS) ∧
    (wwwS = ([] : Str) ∨ wwwS = wwwS) ∧
    (get_canonical_name_from_website seedStandardizer
        (httpsS ++ (wwwS ++ "barclays.com".data)) = some seedHead.1 ∧
      get_canonical_name_from_website seedStandardizer
        (httpsS ++ (wwwS ++ ("barclays.com".data ++ '/' :: "x?q=1".data))) =
        some seedHead.1) :=
  ⟨by decide, by decide, by decide, by decide, Or.inr (Or.inr rfl), Or.inr rfl,
    website_resolution_c2 seedHead "barclays.com".data "barclays.com".data httpsS wwwS
      "x?q=1".data (by decide) (by decide) (by decide) (by decide)
      (Or.inr (Or.inr rfl)) (Or.inr rfl)⟩
